import Mathlib

/-!
NightSupportScreen: timers, capture cycle and location push.

A shallow embedding of `client/app/screens/NightSupportScreen.js`.

* The six `useState` cells are the record `RState`.  A handler is a closure of
  one render: it reads the fields of the render it was created in (its
  argument `r`) and its `setX` calls update the cells held by the `World`,
  which the next render reads.
* The platform (timers, audio, network, remote store) is the rest of `World`;
  what an external call answers is an argument of the handler that makes it.
* An `async` body is a `Task`: a tree of world reads, world writes, `await`s
  on the platform and `setTimeout` waits, so `try`/`catch`/`finally` and every
  suspension of `recordAndSendAudio` keep the shape they have in the source.
-/

namespace NightSupport

/-! ## Data model -/

/-- Values held by the `location` cell and by the store key `locations/current`. -/
inductive Value where
  | null
  | bool (b : Bool)
  | num (x : Rat)
  | str (s : String)
  | coords (latitude longitude : Rat)
  /-- any other object or array, by its JSON text -/
  | object (json : String)
  deriving DecidableEq

/-- JavaScript truthiness of a `Value`. -/
def Value.truthy : Value → Bool
  | .null => false
  | .bool b => b
  | .num x => decide (x ≠ 0)
  | .str s => decide (s ≠ "")
  | .coords _ _ => true
  | .object _ => true

/-- The `useState` cells of the component (source lines 18-23). -/
structure RState where
  isEnabled : Bool
  location : Value
  intervalId : Option Nat
  loading : Bool
  isMicEnabled : Bool
  isRecording : Bool
  deriving DecidableEq

/-- The functions of the component that are handed to the timer facility. -/
inductive Callback where
  | locationTick
  | recordAndSendAudio
  deriving DecidableEq

/-- A live `setInterval` registration.  `env` is the render whose closure was
registered, `due` the time of its next tick and `armedAt` the time at which
it was armed for that tick. -/
structure Interval where
  id : Nat
  period : Nat
  due : Nat
  armedAt : Nat
  callback : Callback
  env : RState
  deriving DecidableEq

/-- What the code passes to `clearInterval`: a timer id or a function value. -/
inductive TimerArg where
  | id (n : Nat)
  | func (c : Callback)
  deriving DecidableEq

/-- Calls made on the audio library, in the order they are made. -/
inductive AudioCall where
  | setAudioMode
  | prepareToRecord (h : Nat)
  | start (h : Nat)
  | stopAndUnload (h : Nat)
  deriving DecidableEq

/-- One `POST /predict`: the recording object it came from and the URI sent. -/
structure Upload where
  recording : Nat
  uri : String
  deriving DecidableEq

/-- Everything a handler can read or change. -/
structure World where
  /-- the `useState` cells, as the next render will read them -/
  react : RState
  /-- `recordingRef.current`: `none` is `null`, `some h` the `h`-th `Audio.Recording` -/
  recordingRef : Option Nat
  /-- the local variable `recording` of the running call of `recordAndSendAudio` -/
  recordingVar : Option Nat
  /-- clock, in milliseconds -/
  now : Nat
  /-- the last timer id handed out; ids are positive -/
  lastTimerId : Nat
  /-- live `setInterval` registrations -/
  intervals : List Interval
  /-- number of `Audio.Recording` objects constructed so far -/
  recordings : Nat
  /-- value of the store key `locations/current` -/
  store : Value
  /-- values written to `locations/current`, oldest first -/
  storeWrites : List Value
  /-- number of `POST /send-sms` requests issued -/
  alertPosts : Nat
  /-- `POST /predict` requests issued, oldest first -/
  uploads : List Upload
  /-- calls made on the audio library, oldest first -/
  audioCalls : List AudioCall
  /-- titles of the dialogs shown with `Alert.alert`, oldest first -/
  dialogs : List String
  /-- whether the `onValue` subscription on `locations/current` is registered -/
  subscribed : Bool
  /-- the render whose `useEffect(..., [intervalId])` cleanup is installed -/
  effectEnv : RState

/-! ## Asynchronous bodies -/

/-- An `async` function body: it returns, throws, reads the world, replaces the
world, or is suspended before continuing: by an `await` on a promise of the
platform, or by an `await` on a `setTimeout` promise. -/
inductive Task (α : Type) : Type where
  | ret (a : α)
  | throw (e : String)
  | get (k : World → Task α)
  | put (w : World) (k : Task α)
  /-- suspended until a promise of the platform settles -/
  | await (k : Task α)
  /-- suspended until a `setTimeout` of `ms` milliseconds fires -/
  | sleep (ms : Nat) (k : Task α)

namespace Task

/-- Sequencing: `t` then `f` on its value; a throw skips `f`. -/
def bind {α β : Type} : Task α → (α → Task β) → Task β
  | ret a, f => f a
  | throw e, _ => throw e
  | get k, f => get (fun w => (k w).bind f)
  | put w k, f => put w (k.bind f)
  | await k, f => await (k.bind f)
  | sleep ms k, f => sleep ms (k.bind f)

/-- The statement `try { t } catch (error) { h error }`. -/
def tryCatch {α : Type} : Task α → (String → Task α) → Task α
  | ret a, _ => ret a
  | throw e, h => h e
  | get k, h => get (fun w => (k w).tryCatch h)
  | put w k, h => put w (k.tryCatch h)
  | await k, h => await (k.tryCatch h)
  | sleep ms k, h => sleep ms (k.tryCatch h)

/-- The statement `try { t } finally { fin }`: `fin` runs on both exits and the
exit of `t` is kept unless `fin` itself throws. -/
def tryFinally {α : Type} : Task α → Task Unit → Task α
  | ret a, fin => fin.bind (fun _ => ret a)
  | throw e, fin => fin.bind (fun _ => throw e)
  | get k, fin => get (fun w => (k w).tryFinally fin)
  | put w k, fin => put w (k.tryFinally fin)
  | await k, fin => await (k.tryFinally fin)
  | sleep ms k, fin => sleep ms (k.tryFinally fin)

/-- Run to completion, nothing else running while the body is suspended. -/
def run {α : Type} : Task α → World → Except String α × World
  | ret a, w => (.ok a, w)
  | throw e, w => (.error e, w)
  | get k, w => (k w).run w
  | put w k, _ => k.run w
  | await k, w => k.run w
  | sleep _ k, w => k.run w

end Task

instance : Monad Task where
  pure := Task.ret
  bind := Task.bind

/-- Read the world. -/
def readWorld : Task World := Task.get Task.ret

/-- Change the world. -/
def modifyWorld (f : World → World) : Task Unit :=
  Task.get (fun w => Task.put (f w) (Task.ret ()))

/-- The promise `new Promise((resolve) => setTimeout(resolve, ms))`, awaited. -/
def wait (ms : Nat) : Task Unit := Task.sleep ms (Task.ret ())

/-- The suspension of an `await` on a call of the platform, between the call
and its answer. -/
def settle : Task Unit := Task.await (Task.ret ())

/-- A call of an `async` function whose promise is dropped: a rejection is not
seen by the caller. -/
def detach (t : Task Unit) : Task Unit := t.tryCatch (fun _ => Task.ret ())

/-! ## State setters -/

def setIsEnabled (f : Bool → Bool) : Task Unit :=
  modifyWorld fun w => { w with react := { w.react with isEnabled := f w.react.isEnabled } }

def setLocation (v : Value) : Task Unit :=
  modifyWorld fun w => { w with react := { w.react with location := v } }

def setIntervalId (v : Option Nat) : Task Unit :=
  modifyWorld fun w => { w with react := { w.react with intervalId := v } }

def setLoading (b : Bool) : Task Unit :=
  modifyWorld fun w => { w with react := { w.react with loading := b } }

def setIsMicEnabled (b : Bool) : Task Unit :=
  modifyWorld fun w => { w with react := { w.react with isMicEnabled := b } }

def setIsRecording (b : Bool) : Task Unit :=
  modifyWorld fun w => { w with react := { w.react with isRecording := b } }

def setRecordingRef (v : Option Nat) : Task Unit :=
  modifyWorld fun w => { w with recordingRef := v }

def setRecordingVar (v : Option Nat) : Task Unit :=
  modifyWorld fun w => { w with recordingVar := v }

/-! ## Platform calls -/

/-- The call `setInterval(callback, period)` made by a closure of render `env`:
a fresh positive id is returned and the registration is live from now on. -/
def setInterval (callback : Callback) (period : Nat) (env : RState) : Task Nat :=
  Task.get fun w =>
    Task.put
      { w with
        lastTimerId := w.lastTimerId + 1
        intervals := w.intervals ++
          [{ id := w.lastTimerId + 1, period := period, due := w.now + period,
             armedAt := w.now, callback := callback, env := env }] }
      (Task.ret (w.lastTimerId + 1))

/-- The call `clearInterval(arg)`: the registration whose id is `arg` is
removed; a function value is the id of no timer, so nothing is removed. -/
def clearInterval : TimerArg → Task Unit
  | .id n => modifyWorld fun w => { w with intervals := w.intervals.filter (fun i => i.id ≠ n) }
  | .func _ => Task.ret ()

/-- The call `Alert.alert(title, ...)`. -/
def alert (title : String) : Task Unit :=
  modifyWorld fun w => { w with dialogs := w.dialogs ++ [title] }

/-- Truthiness of the `intervalId` cell: `null` and `0` are falsy. -/
def idTruthy : Option Nat → Bool
  | none => false
  | some n => decide (n ≠ 0)

/-- What the `POST /send-sms` request answers. -/
inductive AlertOutcome where
  | networkError
  | response (ok : Bool) (jsonParses : Bool)
  deriving DecidableEq

/-- The `try` block of lines 52-60: `fetch`, the `response.ok` test and
`response.json()`. -/
def sendSms : AlertOutcome → Task Unit
  | .networkError => do
      modifyWorld fun w => { w with alertPosts := w.alertPosts + 1 }
      settle
      Task.throw "Network request failed"
  | .response ok jsonParses => do
      modifyWorld fun w => { w with alertPosts := w.alertPosts + 1 }
      settle
      if !ok then
        Task.throw "HTTP error!"
      else
        settle
        if !jsonParses then
          Task.throw "JSON Parse error"
        else
          pure ()

/-- The call `Location.getCurrentPositionAsync(...)`, awaited: a fix or a throw. -/
def getCurrentPositionAsync : Option (Rat × Rat) → Task (Rat × Rat)
  | some c => do
      settle
      pure c
  | none => do
      settle
      Task.throw "Location request failed"

/-- The call `Location.requestForegroundPermissionsAsync()`, awaited: the
status it answers. -/
def requestForegroundPermissionsAsync (status : String) : Task String := do
  settle
  pure status

/-- The call `set(ref(database, "locations/current"), v)`, awaited. -/
def setStore (v : Value) (ok : Bool) : Task Unit :=
  if ok then do
    modifyWorld fun w => { w with store := v, storeWrites := w.storeWrites ++ [v] }
    settle
  else do
    settle
    Task.throw "set failed"

/-- The call `Audio.setAudioModeAsync(...)`, awaited. -/
def setAudioModeAsync (ok : Bool) : Task Unit := do
  modifyWorld fun w => { w with audioCalls := w.audioCalls ++ [.setAudioMode] }
  settle
  if ok then pure () else Task.throw "setAudioModeAsync failed"

/-- The expression `new Audio.Recording()`. -/
def newRecording : Task Nat :=
  Task.get fun w => Task.put { w with recordings := w.recordings + 1 } (Task.ret (w.recordings + 1))

/-- An awaited method call on the local variable `recording`; on `null` it is
a `TypeError`. -/
def onRecording (recording : Option Nat) (call : Nat → AudioCall) (ok : Bool) : Task Unit :=
  match recording with
  | none => Task.throw "TypeError: null is not an object"
  | some h => do
      modifyWorld fun w => { w with audioCalls := w.audioCalls ++ [call h] }
      settle
      if ok then pure () else Task.throw "recording call failed"

/-- Truthiness of the result of `recording.getURI()`. -/
def uriTruthy : Option String → Bool
  | none => false
  | some s => decide (s ≠ "")

/-- The call `fetch(".../predict", { method: "POST", body: formData })`, awaited. -/
def postPredict (recording : Option Nat) (uri : String) (ok : Bool) : Task Unit := do
  modifyWorld fun w =>
    { w with uploads := w.uploads ++ [{ recording := recording.getD 0, uri := uri }] }
  settle
  if ok then pure () else Task.throw "Network request failed"

/-! ## The component's functions -/

/-- Source lines 202-207. -/
def startRecordingLoop (r : RState) : Task Unit := do
  if !r.isRecording then
    setIsRecording true
    let _ ← setInterval .recordAndSendAudio 20000 r

/-- Source lines 209-214: `clearInterval` is handed the function
`recordAndSendAudio`, not a timer id. -/
def stopRecordingLoop (r : RState) : Task Unit := do
  if r.isRecording then
    setIsRecording false
    clearInterval (.func .recordAndSendAudio)

/-- The callback handed to `setInterval` at source lines 65-83.  `fix` is what
`getCurrentPositionAsync` answers (`none`: it throws) and `setOk` whether the
store write succeeds. -/
def locationTick (fix : Option (Rat × Rat)) (setOk : Bool) : Task Unit :=
  Task.tryCatch
    (do
      let currentLocation ← getCurrentPositionAsync fix
      let latitude := currentLocation.1
      let longitude := currentLocation.2
      setLocation (.coords latitude longitude)
      setStore (.coords latitude longitude) setOk)
    (fun _ => pure ())

/-- Source lines 35-91.  `status` is the status answered by
`requestForegroundPermissionsAsync` and `sms` what `POST /send-sms` answers. -/
def startLocationUpdates (r : RState) (status : String) (sms : AlertOutcome) : Task Unit := do
  setLoading true
  let foregroundStatus ← requestForegroundPermissionsAsync status
  if foregroundStatus ≠ "granted" then
    alert "Permission required"
    setLoading false
  else
    if idTruthy r.intervalId then
      clearInterval (.id (r.intervalId.getD 0))
    Task.tryCatch (sendSms sms) (fun _ => pure ())
    let id ← setInterval .locationTick 10000 r
    setIntervalId (some id)
    setLoading false
    if r.isMicEnabled then
      startRecordingLoop r

/-- Source lines 93-100. -/
def stopLocationUpdates (r : RState) : Task Unit := do
  if idTruthy r.intervalId then
    clearInterval (.id (r.intervalId.getD 0))
    setIntervalId none
  setLocation .null
  stopRecordingLoop r

/-- Source lines 26-33.  `startLocationUpdates` is `async` and its promise is
dropped. -/
def toggleSwitch (r : RState) (status : String) (sms : AlertOutcome) : Task Unit := do
  setIsEnabled (fun previousState => !previousState)
  if !r.isEnabled then
    detach (startLocationUpdates r status sms)
  else
    stopLocationUpdates r

/-- Source lines 102-120.  `audioModeOk` tells whether `setAudioModeAsync`
resolves. -/
def enableMic (r : RState) (audioModeOk : Bool) : Task Unit :=
  Task.tryCatch
    (do
      setAudioModeAsync audioModeOk
      setIsMicEnabled true
      setIsRecording true
      alert "Microphone Enabled"
      startRecordingLoop r)
    (fun _ => alert "Error")

/-- Source lines 122-135. -/
def stopMic (r : RState) : Task Unit :=
  Task.tryCatch
    (do
      setIsMicEnabled false
      setIsRecording false
      stopRecordingLoop r
      alert "Microphone Stopped")
    (fun _ => alert "Error")

/-- What the external calls of one run of `recordAndSendAudio` answer: whether
each awaited call resolves, and the result of `recording.getURI()`. -/
structure CaptureOutcome where
  audioModeOk : Bool
  prepareOk : Bool
  startOk : Bool
  stopOk : Bool
  uri : Option String
  uploadOk : Bool

/-- Source lines 137-200. -/
def recordAndSendAudio (r : RState) (o : CaptureOutcome) : Task Unit := do
  setRecordingVar (← readWorld).recordingRef
  Task.tryFinally
    (Task.tryCatch
      (do
        if (← readWorld).recordingVar.isNone then
          setAudioModeAsync o.audioModeOk
          setRecordingVar (some (← newRecording))
          onRecording (← readWorld).recordingVar .prepareToRecord o.prepareOk
          setRecordingRef (← readWorld).recordingVar
        if !r.isRecording then
          onRecording (← readWorld).recordingVar .start o.startOk
          setIsRecording true
        wait 15000
        onRecording (← readWorld).recordingVar .stopAndUnload o.stopOk
        let uri := o.uri
        if uriTruthy uri then
          Task.tryCatch
            (postPredict (← readWorld).recordingVar (uri.getD "") o.uploadOk)
            (fun _ => pure ())
        wait 5000)
      (fun _ => pure ()))
    (do
      if (← readWorld).recordingVar.isSome then
        setRecordingVar none
        setRecordingRef none)

/-- The callback handed to `onValue` at source lines 218-223. -/
def onLocationValue (data : Value) : Task Unit := do
  if data.truthy then
    setLocation data

/-- The cleanup returned by the effect of source lines 230-237, as a closure
of render `r`. -/
def intervalCleanup (r : RState) : Task Unit := do
  if idTruthy r.intervalId then
    clearInterval (.id (r.intervalId.getD 0))
  stopRecordingLoop r

/-! ## Renders and events -/

/-- The cells after the first render (the `useState` defaults). -/
def initialState : RState :=
  { isEnabled := false, location := .null, intervalId := none, loading := false,
    isMicEnabled := false, isRecording := false }

/-- The world once the component is mounted: no timer, no recording, an empty
store key, the subscription registered and the effects of the first render
installed. -/
def initialWorld : World :=
  { react := initialState, recordingRef := none, recordingVar := none, now := 0,
    lastTimerId := 0, intervals := [], recordings := 0, store := .null,
    storeWrites := [], alertPosts := 0, uploads := [], audioCalls := [], dialogs := [],
    subscribed := true, effectEnv := initialState }

/-- A handler of the current render runs on the cells that render shows. -/
def dispatch (handler : RState → Task Unit) (w : World) : World :=
  ((handler w.react).run w).2

/-- The render that follows a handler.  The effect of lines 230-237 depends on
`intervalId`: when that cell changed, the installed cleanup runs as a closure
of the render that installed it, and the new render installs its own. -/
def commit (w : World) : World :=
  if w.react.intervalId = w.effectEnv.intervalId then
    w
  else
    { ((intervalCleanup w.effectEnv).run w).2 with effectEnv := w.react }

/-- The calls a user can cause, with what the platform answers to each. -/
inductive Event where
  | toggleSwitch (status : String) (sms : AlertOutcome)
  | enableMic (audioModeOk : Bool)
  | stopMic

/-- The handler an event invokes. -/
def Event.handler : Event → RState → Task Unit
  | .toggleSwitch status sms => fun r => NightSupport.toggleSwitch r status sms
  | .enableMic audioModeOk => fun r => NightSupport.enableMic r audioModeOk
  | .stopMic => fun r => NightSupport.stopMic r

/-- One event: its handler runs, then the component renders again. -/
def step (w : World) (e : Event) : World :=
  commit (dispatch e.handler w)

/-- A sequence of events, each handler reading the cells left by the previous one. -/
def runEvents (w : World) (es : List Event) : World :=
  es.foldl step w

/-- Live intervals scheduled on a given function. -/
def liveOn (c : Callback) (w : World) : List Interval :=
  w.intervals.filter (fun i => i.callback = c)

/-- The function returned by `onValue`, called by the cleanup of the effect
of source lines 216-228. -/
def unsubscribe : Task Unit :=
  modifyWorld fun w => { w with subscribed := false }

/-- The store delivers a snapshot of `locations/current`: the callback handed
to `onValue` runs if the subscription is still registered. -/
def deliver (data : Value) (w : World) : World :=
  if w.subscribed then ((onLocationValue data).run w).2 else w

/-- The component unmounts: the cleanups of both effects run, in the order of
the effects; the second is the closure of the render that installed it. -/
def unmount (w : World) : World :=
  ((do unsubscribe; intervalCleanup w.effectEnv).run w).2

/-! ## Timed execution -/

/-- What the platform answers to the calls made by a tick that starts at a
given time. -/
structure Oracle where
  fix : Nat → Option (Rat × Rat)
  setOk : Nat → Bool
  capture : Nat → CaptureOutcome

/-- The task a registered callback runs when its timer fires at time `now`. -/
def Callback.task (c : Callback) (env : RState) (o : Oracle) (now : Nat) : Task Unit :=
  match c with
  | .locationTick => NightSupport.locationTick (o.fix now) (o.setOk now)
  | .recordAndSendAudio => NightSupport.recordAndSendAudio env (o.capture now)

/-- How far a task got: it finished, or it is waiting on a `setTimeout`. -/
inductive Progress (α : Type) where
  | done (res : Except String α)
  | waiting (ms : Nat) (rest : Task α)

/-- Run up to the first `setTimeout` wait; the promises of the platform settle
with no time passing, before any timer fires. -/
def Task.runToWait {α : Type} : Task α → World → Progress α × World
  | .ret a, w => (.done (.ok a), w)
  | .throw e, w => (.done (.error e), w)
  | .get k, w => (k w).runToWait w
  | .put w k, _ => k.runToWait w
  | .await k, w => k.runToWait w
  | .sleep ms k, w => (.waiting ms k, w)

/-- A call suspended on a `setTimeout`: when it resumes, when the timeout was
armed, the value of its local variable `recording`, and the rest of its body. -/
structure Pending where
  due : Nat
  armedAt : Nat
  recordingVar : Option Nat
  rest : Task Unit

/-- The world together with the suspended calls. -/
structure Sched where
  world : World
  pending : List Pending

/-- Order of firing: earlier due time first, and among equal due times the
timer armed earlier. -/
def fireBefore (due1 armed1 due2 armed2 : Nat) : Bool :=
  decide (due1 < due2) || (decide (due1 = due2) && decide (armed1 < armed2))

/-- The interval that fires first among those live, with its position in the
table; among intervals due and armed at the same times, the first registered. -/
def nextInterval : List Interval → Option (Nat × Interval)
  | [] => none
  | i :: rest =>
    match nextInterval rest with
    | none => some (0, i)
    | some (k, j) =>
      if fireBefore j.due j.armedAt i.due i.armedAt then some (k + 1, j) else some (0, i)

/-- The suspended call that resumes first, with its position. -/
def nextPending : List Pending → Option (Nat × Pending)
  | [] => none
  | p :: rest =>
    match nextPending rest with
    | none => some (0, p)
    | some (k, q) =>
      if fireBefore q.due q.armedAt p.due p.armedAt then some (k + 1, q) else some (0, p)

/-- Run a task until it finishes or waits; a waiting task is suspended with its
local variable. -/
def launch (t : Task Unit) (s : Sched) : Sched :=
  match t.runToWait s.world with
  | (.done _, w) => { world := w, pending := s.pending }
  | (.waiting ms rest, w) =>
    { world := w,
      pending := s.pending ++
        [{ due := w.now + ms, armedAt := w.now, recordingVar := w.recordingVar, rest := rest }] }

/-- The interval at position `k` is armed again at time `now`, one period after
the tick that is due. -/
def rearmAt : Nat → Nat → List Interval → List Interval
  | _, _, [] => []
  | 0, now, j :: rest => { j with due := j.due + j.period, armedAt := now } :: rest
  | k + 1, now, j :: rest => j :: rearmAt k now rest

/-- The interval `i` at position `k` fires: the clock moves to its due time, it
is armed again one period later, and its callback runs. -/
def fireInterval (o : Oracle) (k : Nat) (i : Interval) (s : Sched) : Sched :=
  launch (i.callback.task i.env o i.due)
    { s with world :=
        { s.world with now := i.due, intervals := rearmAt k i.due s.world.intervals } }

/-- The suspended call `p` at position `k` resumes: the clock moves to its due
time and the rest of its body runs with its own local variable. -/
def resume (k : Nat) (p : Pending) (s : Sched) : Sched :=
  launch p.rest
    { world := { s.world with now := p.due, recordingVar := p.recordingVar },
      pending := s.pending.eraseIdx k }

/-- The next timer event due at or before `horizon`, if there is one.  At equal
due and arming times an interval fires before a suspended call resumes. -/
def nextEvent (o : Oracle) (horizon : Nat) (s : Sched) : Option Sched :=
  match nextInterval s.world.intervals, nextPending s.pending with
  | none, none => none
  | some (k, i), none => if i.due ≤ horizon then some (fireInterval o k i s) else none
  | none, some (k, p) => if p.due ≤ horizon then some (resume k p s) else none
  | some (k, i), some (m, p) =>
    if fireBefore p.due p.armedAt i.due i.armedAt then
      (if p.due ≤ horizon then some (resume m p s) else none)
    else
      (if i.due ≤ horizon then some (fireInterval o k i s) else none)

/-- Let time pass up to `horizon`, firing every timer event due by then.  The
result is `none` when `fuel` events did not exhaust them. -/
def runUntil (o : Oracle) (horizon : Nat) : Nat → Sched → Option Sched
  | 0, s =>
    match nextEvent o horizon s with
    | none => some { s with world := { s.world with now := horizon } }
    | some _ => none
  | fuel + 1, s =>
    match nextEvent o horizon s with
    | none => some { s with world := { s.world with now := horizon } }
    | some s1 => runUntil o horizon fuel s1

/-! ## Running a task, statement by statement -/

/-- What follows a statement: the rest runs on a normal exit, a throw passes. -/
def andThen {σ α β : Type} (res : Except String α × σ)
    (f : α → σ → Except String β × σ) : Except String β × σ :=
  match res with
  | (.ok a, w) => f a w
  | (.error e, w) => (.error e, w)

/-- What follows a `try` block: a throw enters the handler. -/
def orElse {σ α : Type} (res : Except String α × σ)
    (h : String → σ → Except String α × σ) : Except String α × σ :=
  match res with
  | (.ok a, w) => (.ok a, w)
  | (.error e, w) => h e w

/-- What follows a `try`/`catch` statement with a `finally` block: the block
runs on the world of either exit, and the exit is kept if the block returns. -/
def andFinally {σ α : Type} (res : Except String α × σ)
    (fin : σ → Except String Unit × σ) : Except String α × σ :=
  match res with
  | (.ok a, w) => andThen (fin w) (fun _ w2 => (.ok a, w2))
  | (.error e, w) => andThen (fin w) (fun _ w2 => (.error e, w2))

/-- What follows a statement that ran up to a wait: the rest runs on a normal
exit, a throw passes, and a waiting statement keeps the rest for later. -/
def thenP {α β : Type} (res : Progress α × World) (f : α → Task β) : Progress β × World :=
  match res with
  | (.done (.ok a), w) => (f a).runToWait w
  | (.done (.error e), w) => (.done (.error e), w)
  | (.waiting ms k, w) => (.waiting ms (k.bind f), w)

/-- What follows a `try` block that ran up to a wait. -/
def catchP {α : Type} (res : Progress α × World) (h : String → Task α) : Progress α × World :=
  match res with
  | (.done (.ok a), w) => (.done (.ok a), w)
  | (.done (.error e), w) => (h e).runToWait w
  | (.waiting ms k, w) => (.waiting ms (k.tryCatch h), w)

/-- What follows a statement with a `finally` block that ran up to a wait. -/
def finallyP {α : Type} (res : Progress α × World) (fin : Task Unit) : Progress α × World :=
  match res with
  | (.done (.ok a), w) => thenP (fin.runToWait w) (fun _ => Task.ret a)
  | (.done (.error e), w) => thenP (fin.runToWait w) (fun _ => Task.throw e)
  | (.waiting ms k, w) => (.waiting ms (k.tryFinally fin), w)

/-- What other code does to the world while a call is suspended: the local
variable of the suspended call is its own. -/
def meanwhile (g : World → World) (w : World) : World :=
  { g w with recordingVar := w.recordingVar }

/-- Run to completion while other code runs at every suspension, the `await`s
on the platform and the `setTimeout` waits alike: `others n` is what runs
during the `n`-th suspension of the call, counted from `0`. -/
def Task.runWith {α : Type} (others : Nat → World → World) :
    Task α → World × Nat → Except String α × (World × Nat)
  | .ret a, s => (.ok a, s)
  | .throw e, s => (.error e, s)
  | .get k, s => (k s.1).runWith others s
  | .put w k, s => k.runWith others (w, s.2)
  | .await k, s => k.runWith others (meanwhile (others s.2) s.1, s.2 + 1)
  | .sleep _ k, s => k.runWith others (meanwhile (others s.2) s.1, s.2 + 1)

/-- Every world the body writes satisfies `P`, provided the world it reads
does. -/
def Task.Keeps {α : Type} (P : World → Prop) : Task α → Prop
  | .ret _ => True
  | .throw _ => True
  | .get k => ∀ w, P w → (k w).Keeps P
  | .put w k => P w ∧ k.Keeps P
  | .await k => k.Keeps P
  | .sleep _ k => k.Keeps P

/-- The well-formedness of the timer table that every handler maintains: ids
are positive and were handed out by `setInterval`, neither the `intervalId`
cell nor the cleanup installed by the effect holds an id of the future, and a
live location interval is the one whose id the `intervalId` cell holds. -/
def TimersWF (w : World) : Prop :=
  (∀ i ∈ w.intervals, 0 < i.id ∧ i.id ≤ w.lastTimerId) ∧
  (∀ n, w.react.intervalId = some n → n ≤ w.lastTimerId) ∧
  (∀ n, w.effectEnv.intervalId = some n → n ≤ w.lastTimerId) ∧
  (∀ i ∈ w.intervals, i.callback = .locationTick → w.react.intervalId = some i.id)

/-- The ids held by the `intervalId` cell are positive, as `setInterval` hands
them out. -/
def IdPositive (w : World) : Prop :=
  ∀ n, w.react.intervalId = some n → 0 < n

/-- A call of `startLocationUpdates` by the current render that is granted the
permission. -/
def startGranted (sms : AlertOutcome) (w : World) : World :=
  dispatch (fun r => startLocationUpdates r "granted" sms) w

/-- The timer a granted `startLocationUpdates` registers for the location push
(source lines 65-83). -/
def locationInterval (w : World) : Interval :=
  { id := w.lastTimerId + 1, period := 10000, due := w.now + 10000, armedAt := w.now,
    callback := .locationTick, env := w.react }

/-- Every awaited call of a capture answers, and `getURI` gives `uri`. -/
def captureOk (uri : String) : CaptureOutcome :=
  { audioModeOk := true, prepareOk := true, startOk := true, stopOk := true,
    uri := some uri, uploadOk := true }

/-- The platform on which every call answers, also `startAsync` and
`stopAndUnloadAsync` asked of a recording already stopped: no position fix is
needed by the capture cycle, and every recording is stored under `uri`. -/
def allOk (uri : String) : Oracle :=
  { fix := fun _ => none, setOk := fun _ => true, capture := fun _ => captureOk uri }

/-- The position source of the end-to-end scenario: the fix `{12.9, 77.6}` for
the tick at 10 s and `{12.91, 77.61}` afterwards. -/
def scenarioFixes : Oracle :=
  { fix := fun t => if t = 10000 then some (12.9, 77.6) else some (12.91, 77.61),
    setOk := fun _ => true, capture := fun _ => captureOk "file:///rec.3gp" }

/-- The location tick runs once per outcome of `getCurrentPositionAsync`, in
order; every store write succeeds. -/
def runTicks (w : World) (fixes : List (Option (Rat × Rat))) : World :=
  fixes.foldl (fun w1 fix => ((locationTick fix true).run w1).2) w

/-- The value the tick writes for a fix. -/
def fixValue (c : Rat × Rat) : Value := .coords c.1 c.2

/-- The mounted component after `enableMic`, `stopMic`, `enableMic`: two
intervals on `recordAndSendAudio` are live. -/
def stackedWorld : World :=
  runEvents initialWorld [.enableMic true, .stopMic, .enableMic true]

/-- What runs while a call of `recordAndSendAudio` is suspended for the first
time: the call made by a second interval, whose steps all succeed, gets to its
recording wait.  Nothing runs during the later suspensions. -/
def secondCallStarts : Nat → World → World
  | 0, w => ((recordAndSendAudio initialState (captureOk "file:///rec.3gp")).runToWait w).2
  | _ + 1, w => w

/-- A world in which a call of `recordAndSendAudio` holds recording 1. -/
def heldWorld : World :=
  { initialWorld with recordingRef := some 1, recordings := 1 }

/-- The uploads issued by time `horizon` when `w` is left to its timers, no
call being suspended at the start. -/
def uploadsBy (o : Oracle) (horizon fuel : Nat) (w : World) : Option (List Upload) :=
  (runUntil o horizon fuel { world := w, pending := [] }).map (fun s => s.world.uploads)

/-- A continuation that, resumed after the cooldown wait, returns at once:
it releases the handle if the call held a recording and changes neither the
uploads nor the timers nor the clock, and constructs no recording. -/
def Releases (k : Task Unit) : Prop :=
  ∀ w : World, ∃ w1, k.runToWait w = (.done (.ok ()), w1) ∧
    (w.recordingVar.isSome = true → w1.recordingRef = none) ∧
    w1.uploads = w.uploads ∧ w1.intervals = w.intervals ∧ w1.now = w.now ∧
    w1.recordings = w.recordings

/-- A continuation that, resumed after the recording wait by a call holding
recording `h`, issues one upload of `uri` for `h` and waits 5000 ms for a
continuation that releases; it constructs no recording. -/
def UploadsThenReleases (k : Task Unit) (uri : String) : Prop :=
  ∀ (w : World) (h : Nat), w.recordingVar = some h →
    ∃ k1 w1, k.runToWait w = (.waiting 5000 k1, w1) ∧ Releases k1 ∧
      w1.uploads = w.uploads ++ [{ recording := h, uri := uri }] ∧
      w1.recordingRef = w.recordingRef ∧ w1.recordingVar = some h ∧
      w1.intervals = w.intervals ∧ w1.now = w.now ∧ w1.recordings = w.recordings

/-- A live interval scheduled on `recordAndSendAudio` by a render `env`. -/
def captureInterval (id due armedAt : Nat) (env : RState) : Interval :=
  { id := id, period := 20000, due := due, armedAt := armedAt,
    callback := .recordAndSendAudio, env := env }

/-- The capture cycle while the first call waits out its cooldown: the call,
holding recording `h`, has uploaded and resumes at 40 s; the interval `id` is
due at 40 s; `recordingRef.current` still holds `h`, the last recording
constructed. -/
def FirstCooldown (s : Sched) (id : Nat) (env : RState) (h : Nat) (ups : List Upload) : Prop :=
  ∃ q, s.pending = [q] ∧ q.due = 40000 ∧ q.armedAt = 35000 ∧ q.recordingVar = some h ∧
    Releases q.rest ∧ s.world.intervals = [captureInterval id 40000 20000 env] ∧
    s.world.uploads = ups ∧ s.world.recordingRef = some h ∧ s.world.recordings = h

/-- The platform on which every call answers, except that `startAsync` rejects
for the call that starts at 40 s. -/
def restartRejected (uri : String) : Oracle :=
  { fix := fun _ => none, setOk := fun _ => true,
    capture := fun t =>
      if t = 40000 then { captureOk uri with startOk := false } else captureOk uri }

/-! ## Lemmas on running tasks -/

@[simp]
theorem andThen_ok {σ α β : Type} (a : α) (w : σ)
    (f : α → σ → Except String β × σ) : andThen (.ok a, w) f = f a w := rfl

@[simp]
theorem andThen_error {σ α β : Type} (e : String) (w : σ)
    (f : α → σ → Except String β × σ) :
    andThen ((.error e, w) : Except String α × σ) f = (.error e, w) := rfl

@[simp]
theorem orElse_ok {σ α : Type} (a : α) (w : σ)
    (h : String → σ → Except String α × σ) : orElse (.ok a, w) h = (.ok a, w) := rfl

@[simp]
theorem orElse_error {σ α : Type} (e : String) (w : σ)
    (h : String → σ → Except String α × σ) :
    orElse ((.error e, w) : Except String α × σ) h = h e w := rfl

@[simp]
theorem andFinally_ok {σ α : Type} (a : α) (w : σ)
    (fin : σ → Except String Unit × σ) :
    andFinally (.ok a, w) fin = andThen (fin w) (fun _ w2 => (.ok a, w2)) := rfl

@[simp]
theorem andFinally_error {σ α : Type} (e : String) (w : σ)
    (fin : σ → Except String Unit × σ) :
    andFinally ((.error e, w) : Except String α × σ) fin =
      andThen (fin w) (fun _ w2 => (.error e, w2)) := rfl

@[simp]
theorem andThen_ite {σ α β : Type} (c : Prop) [Decidable c]
    (x y : Except String α × σ) (f : α → σ → Except String β × σ) :
    andThen (if c then x else y) f = if c then andThen x f else andThen y f := by
  split <;> rfl

@[simp]
theorem orElse_ite {σ α : Type} (c : Prop) [Decidable c]
    (x y : Except String α × σ) (h : String → σ → Except String α × σ) :
    orElse (if c then x else y) h = if c then orElse x h else orElse y h := by
  split <;> rfl

@[simp]
theorem andFinally_ite {σ α : Type} (c : Prop) [Decidable c]
    (x y : Except String α × σ) (fin : σ → Except String Unit × σ) :
    andFinally (if c then x else y) fin = if c then andFinally x fin else andFinally y fin := by
  split <;> rfl

/-- Sequencing under `Task.run`. -/
theorem Task.run_bind_aux {α β : Type} (t : Task α) (f : α → Task β) :
    ∀ w, (t.bind f).run w = andThen (t.run w) (fun a w1 => (f a).run w1) := by
  induction t with
  | ret a => intro w; rfl
  | throw e => intro w; rfl
  | get k ih => intro w; exact ih w w
  | put w0 k ih => intro w; exact ih w0
  | await k ih => intro w; exact ih w
  | sleep ms k ih => intro w; exact ih w

@[simp]
theorem Task.run_bind {α β : Type} (t : Task α) (f : α → Task β) (w : World) :
    (t >>= f).run w = andThen (t.run w) (fun a w1 => (f a).run w1) :=
  Task.run_bind_aux t f w

@[simp]
theorem Task.run_pure {α : Type} (a : α) (w : World) :
    (pure a : Task α).run w = (.ok a, w) := rfl

@[simp]
theorem Task.run_ret {α : Type} (a : α) (w : World) :
    (Task.ret a).run w = (.ok a, w) := rfl

@[simp]
theorem Task.run_throw {α : Type} (e : String) (w : World) :
    (Task.throw e : Task α).run w = (.error e, w) := rfl

@[simp]
theorem Task.run_tryCatch {α : Type} (t : Task α) (h : String → Task α) (w : World) :
    (t.tryCatch h).run w = orElse (t.run w) (fun e w1 => (h e).run w1) := by
  induction t generalizing w with
  | ret a => rfl
  | throw e => rfl
  | get k ih => exact ih w w
  | put w0 k ih => exact ih w0
  | await k ih => exact ih w
  | sleep ms k ih => exact ih w

@[simp]
theorem Task.run_tryFinally {α : Type} (t : Task α) (fin : Task Unit) (w : World) :
    (t.tryFinally fin).run w = andFinally (t.run w) (fun w1 => fin.run w1) := by
  induction t generalizing w with
  | ret a => exact Task.run_bind_aux fin _ w
  | throw e => exact Task.run_bind_aux fin _ w
  | get k ih => exact ih w w
  | put w0 k ih => exact ih w0
  | await k ih => exact ih w
  | sleep ms k ih => exact ih w

@[simp]
theorem run_readWorld (w : World) : readWorld.run w = (.ok w, w) := rfl

@[simp]
theorem run_modifyWorld (f : World → World) (w : World) :
    (modifyWorld f).run w = (.ok (), f w) := rfl

@[simp]
theorem run_wait (ms : Nat) (w : World) : (wait ms).run w = (.ok (), w) := rfl

@[simp]
theorem Task.run_ite {α : Type} (c : Prop) [Decidable c] (a b : Task α) (w : World) :
    (if c then a else b).run w = if c then a.run w else b.run w := by
  split <;> rfl

@[simp]
theorem Task.run_get {α : Type} (k : World → Task α) (w : World) :
    (Task.get k).run w = (k w).run w := rfl

@[simp]
theorem Task.run_put {α : Type} (w0 : World) (k : Task α) (w : World) :
    (Task.put w0 k).run w = k.run w0 := rfl

@[simp]
theorem Task.run_sleep {α : Type} (ms : Nat) (k : Task α) (w : World) :
    (Task.sleep ms k).run w = k.run w := rfl

@[simp]
theorem Task.run_await {α : Type} (k : Task α) (w : World) :
    (Task.await k).run w = k.run w := rfl

@[simp]
theorem run_settle (w : World) : settle.run w = (.ok (), w) := rfl

@[simp]
theorem run_requestForegroundPermissionsAsync (status : String) (w : World) :
    (requestForegroundPermissionsAsync status).run w = (.ok status, w) := rfl

/-! ## Lemmas on running tasks while other code runs at the suspensions -/

/-- Sequencing under `Task.runWith`. -/
theorem Task.runWith_bind_aux {α β : Type} (others : Nat → World → World) (t : Task α)
    (f : α → Task β) :
    ∀ s, (t.bind f).runWith others s =
      andThen (t.runWith others s) (fun a s1 => (f a).runWith others s1) := by
  induction t with
  | ret a => intro s; rfl
  | throw e => intro s; rfl
  | get k ih => intro s; exact ih s.1 s
  | put w0 k ih => intro s; exact ih (w0, s.2)
  | await k ih => intro s; exact ih _
  | sleep ms k ih => intro s; exact ih _

@[simp]
theorem Task.runWith_bind {α β : Type} (others : Nat → World → World) (t : Task α)
    (f : α → Task β) (s : World × Nat) :
    (t >>= f).runWith others s =
      andThen (t.runWith others s) (fun a s1 => (f a).runWith others s1) :=
  Task.runWith_bind_aux others t f s

@[simp]
theorem Task.runWith_pure {α : Type} (others : Nat → World → World) (a : α) (s : World × Nat) :
    (pure a : Task α).runWith others s = (.ok a, s) := rfl

@[simp]
theorem Task.runWith_ret {α : Type} (others : Nat → World → World) (a : α) (s : World × Nat) :
    (Task.ret a).runWith others s = (.ok a, s) := rfl

@[simp]
theorem Task.runWith_throw {α : Type} (others : Nat → World → World) (e : String)
    (s : World × Nat) : (Task.throw e : Task α).runWith others s = (.error e, s) := rfl

@[simp]
theorem Task.runWith_tryCatch {α : Type} (others : Nat → World → World) (t : Task α)
    (h : String → Task α) (s : World × Nat) :
    (t.tryCatch h).runWith others s =
      orElse (t.runWith others s) (fun e s1 => (h e).runWith others s1) := by
  induction t generalizing s with
  | ret a => rfl
  | throw e => rfl
  | get k ih => exact ih s.1 s
  | put w0 k ih => exact ih (w0, s.2)
  | await k ih => exact ih _
  | sleep ms k ih => exact ih _

@[simp]
theorem Task.runWith_tryFinally {α : Type} (others : Nat → World → World) (t : Task α)
    (fin : Task Unit) (s : World × Nat) :
    (t.tryFinally fin).runWith others s =
      andFinally (t.runWith others s) (fun s1 => fin.runWith others s1) := by
  induction t generalizing s with
  | ret a => exact Task.runWith_bind_aux others fin _ s
  | throw e => exact Task.runWith_bind_aux others fin _ s
  | get k ih => exact ih s.1 s
  | put w0 k ih => exact ih (w0, s.2)
  | await k ih => exact ih _
  | sleep ms k ih => exact ih _

@[simp]
theorem runWith_readWorld (others : Nat → World → World) (s : World × Nat) :
    readWorld.runWith others s = (.ok s.1, s) := rfl

@[simp]
theorem runWith_modifyWorld (others : Nat → World → World) (f : World → World)
    (s : World × Nat) : (modifyWorld f).runWith others s = (.ok (), (f s.1, s.2)) := rfl

@[simp]
theorem runWith_wait (others : Nat → World → World) (ms : Nat) (s : World × Nat) :
    (wait ms).runWith others s = (.ok (), (meanwhile (others s.2) s.1, s.2 + 1)) := rfl

@[simp]
theorem runWith_settle (others : Nat → World → World) (s : World × Nat) :
    settle.runWith others s = (.ok (), (meanwhile (others s.2) s.1, s.2 + 1)) := rfl

@[simp]
theorem Task.runWith_ite {α : Type} (others : Nat → World → World) (c : Prop) [Decidable c]
    (a b : Task α) (s : World × Nat) :
    (if c then a else b).runWith others s =
      if c then a.runWith others s else b.runWith others s := by
  split <;> rfl

@[simp]
theorem Task.runWith_get {α : Type} (others : Nat → World → World) (k : World → Task α)
    (s : World × Nat) : (Task.get k).runWith others s = (k s.1).runWith others s := rfl

@[simp]
theorem Task.runWith_put {α : Type} (others : Nat → World → World) (w0 : World) (k : Task α)
    (s : World × Nat) : (Task.put w0 k).runWith others s = k.runWith others (w0, s.2) := rfl

@[simp]
theorem meanwhile_recordingVar (g : World → World) (w : World) :
    (meanwhile g w).recordingVar = w.recordingVar := rfl

@[simp]
theorem meanwhile_recordingRef (g : World → World) (w : World) :
    (meanwhile g w).recordingRef = (g w).recordingRef := rfl

@[simp]
theorem meanwhile_intervals (g : World → World) (w : World) :
    (meanwhile g w).intervals = (g w).intervals := rfl

/-- The world a `try`/`finally` statement leaves is the one its `finally`
block leaves. -/
theorem runWith_tryFinally_world {α : Type} (others : Nat → World → World) (t : Task α)
    (fin : Task Unit) (s : World × Nat) :
    ((t.tryFinally fin).runWith others s).2 =
      (fin.runWith others (t.runWith others s).2).2 := by
  rw [Task.runWith_tryFinally]
  rcases t.runWith others s with ⟨_ | _, s1⟩ <;> simp only [andFinally] <;>
    rcases fin.runWith others s1 with ⟨_ | _, s2⟩ <;> rfl

/-- What holds after the `try` block and makes the `finally` block establish
`Q` holds after the whole statement. -/
theorem runWith_finally_of (others : Nat → World → World) (t fin : Task Unit) (s : World × Nat)
    (P Q : World → Prop) (ht : P (t.runWith others s).2.1)
    (hfin : ∀ s1 : World × Nat, P s1.1 → Q (fin.runWith others s1).2.1) :
    Q ((t.tryFinally fin).runWith others s).2.1 := by
  rw [runWith_tryFinally_world]
  exact hfin _ ht

/-- A `catch` block that does nothing leaves the world of the `try` block. -/
theorem runWith_catch_world (others : Nat → World → World) (t : Task Unit) (s : World × Nat) :
    ((t.tryCatch (fun _ => pure ())).runWith others s).2 = (t.runWith others s).2 := by
  rw [Task.runWith_tryCatch]
  rcases t.runWith others s with ⟨_ | _, s1⟩ <;> rfl

/-- A `try` block with a `catch` block that does nothing never throws. -/
theorem runWith_catch_ok (others : Nat → World → World) (t : Task Unit) (s : World × Nat) :
    ((t.tryCatch (fun _ => pure ())).runWith others s).1 = .ok () := by
  rw [Task.runWith_tryCatch]
  rcases t.runWith others s with ⟨_ | _, s1⟩ <;> rfl

/-- A statement that does not throw, with a `finally` block that does not
throw, does not throw. -/
theorem runWith_finally_ok (others : Nat → World → World) (t fin : Task Unit) (s : World × Nat)
    (ht : (t.runWith others s).1 = .ok ())
    (hfin : ∀ s1, (fin.runWith others s1).1 = .ok ()) :
    ((t.tryFinally fin).runWith others s).1 = .ok () := by
  rw [Task.runWith_tryFinally]
  rcases h : t.runWith others s with ⟨_ | _, s1⟩
  · rw [h] at ht; cases ht
  · have h1 := hfin s1
    simp only [andFinally]
    rcases h2 : fin.runWith others s1 with ⟨_ | _, s2⟩
    · rw [h2] at h1; cases h1
    · rfl

/-- The first statement of `recordAndSendAudio`: the local variable takes the
value of `recordingRef.current`. -/
theorem runWith_prologue (others : Nat → World → World) (k : Task Unit) (s : World × Nat) :
    (readWorld >>= fun x => setRecordingVar x.recordingRef >>= fun _ => k).runWith others s =
      k.runWith others ({ s.1 with recordingVar := s.1.recordingRef }, s.2) := by
  simp only [Task.runWith_bind, runWith_readWorld, andThen_ok, setRecordingVar,
    runWith_modifyWorld]

/-! ## Properties kept by every write of a body -/

/-- A property that a body keeps, and that the code running during its
suspensions keeps, holds when the body completes. -/
theorem keeps_runWith {α : Type} (P : World → Prop) (others : Nat → World → World)
    (hoth : ∀ n w, P w → P (meanwhile (others n) w)) (t : Task α) :
    t.Keeps P → ∀ s : World × Nat, P s.1 → P (t.runWith others s).2.1 := by
  induction t with
  | ret a => intro _ s hs; exact hs
  | throw e => intro _ s hs; exact hs
  | get k ih => intro h s hs; exact ih s.1 (h s.1 hs) s hs
  | put w0 k ih => intro h s _; exact ih h.2 (w0, s.2) h.1
  | await k ih => intro h s hs; exact ih h _ (hoth _ _ hs)
  | sleep ms k ih => intro h s hs; exact ih h _ (hoth _ _ hs)

theorem keeps_bind_aux {α β : Type} {P : World → Prop} (t : Task α) (f : α → Task β)
    (ht : t.Keeps P) (hf : ∀ a, (f a).Keeps P) : (t.bind f).Keeps P := by
  induction t with
  | ret a => exact hf a
  | throw e => trivial
  | get k ih => intro w hw; exact ih w (ht w hw)
  | put w0 k ih => exact ⟨ht.1, ih ht.2⟩
  | await k ih => exact ih ht
  | sleep ms k ih => exact ih ht

theorem keeps_bind {α β : Type} {P : World → Prop} {t : Task α} {f : α → Task β}
    (ht : t.Keeps P) (hf : ∀ a, (f a).Keeps P) : (t >>= f).Keeps P :=
  keeps_bind_aux t f ht hf

theorem keeps_tryCatch {α : Type} {P : World → Prop} {t : Task α} {h : String → Task α}
    (ht : t.Keeps P) (hh : ∀ e, (h e).Keeps P) : (t.tryCatch h).Keeps P := by
  induction t with
  | ret a => trivial
  | throw e => exact hh e
  | get k ih => intro w hw; exact ih w (ht w hw)
  | put w0 k ih => exact ⟨ht.1, ih ht.2⟩
  | await k ih => exact ih ht
  | sleep ms k ih => exact ih ht

theorem keeps_tryFinally {α : Type} {P : World → Prop} {t : Task α} {fin : Task Unit}
    (ht : t.Keeps P) (hfin : fin.Keeps P) : (t.tryFinally fin).Keeps P := by
  induction t with
  | ret a => exact keeps_bind_aux fin _ hfin (fun _ => trivial)
  | throw e => exact keeps_bind_aux fin _ hfin (fun _ => trivial)
  | get k ih => intro w hw; exact ih w (ht w hw)
  | put w0 k ih => exact ⟨ht.1, ih ht.2⟩
  | await k ih => exact ih ht
  | sleep ms k ih => exact ih ht

theorem keeps_ite {α : Type} {P : World → Prop} {c : Prop} [Decidable c] {a b : Task α}
    (ha : a.Keeps P) (hb : b.Keeps P) : (if c then a else b).Keeps P := by
  split
  · exact ha
  · exact hb

theorem keeps_pure {α : Type} {P : World → Prop} (a : α) :
    (Pure.pure a : Task α).Keeps P :=
  trivial

theorem keeps_throw {α : Type} {P : World → Prop} (e : String) :
    (Task.throw e : Task α).Keeps P :=
  trivial

theorem keeps_readWorld {P : World → Prop} : readWorld.Keeps P := fun _ _ => trivial

theorem keeps_modifyWorld {P : World → Prop} {f : World → World} (hf : ∀ w, P w → P (f w)) :
    (modifyWorld f).Keeps P := fun w hw => ⟨hf w hw, trivial⟩

theorem keeps_settle {P : World → Prop} : settle.Keeps P := trivial

theorem keeps_wait {P : World → Prop} (ms : Nat) : (wait ms).Keeps P := trivial

theorem keeps_newRecording {P : World → Prop}
    (hP : ∀ w, P w → P { w with recordings := w.recordings + 1 }) : newRecording.Keeps P :=
  fun w hw => ⟨hP w hw, trivial⟩

theorem keeps_onRecording {P : World → Prop} (v : Option Nat) (call : Nat → AudioCall) (ok : Bool)
    (hP : ∀ h w, P w → P { w with audioCalls := w.audioCalls ++ [call h] }) :
    (onRecording v call ok).Keeps P := by
  cases v with
  | none => trivial
  | some h =>
    refine keeps_bind (keeps_modifyWorld (hP h)) (fun _ => ?_)
    refine keeps_bind keeps_settle (fun _ => ?_)
    exact keeps_ite trivial trivial

/-! ## Lemmas on running tasks up to a wait -/

@[simp]
theorem thenP_ok {α β : Type} (a : α) (w : World) (f : α → Task β) :
    thenP (.done (.ok a), w) f = (f a).runToWait w := rfl

@[simp]
theorem thenP_error {α β : Type} (e : String) (w : World) (f : α → Task β) :
    thenP ((.done (.error e), w) : Progress α × World) f = (.done (.error e), w) := rfl

@[simp]
theorem thenP_waiting {α β : Type} (ms : Nat) (k : Task α) (w : World) (f : α → Task β) :
    thenP (.waiting ms k, w) f = (.waiting ms (k.bind f), w) := rfl

@[simp]
theorem catchP_ok {α : Type} (a : α) (w : World) (h : String → Task α) :
    catchP (.done (.ok a), w) h = (.done (.ok a), w) := rfl

@[simp]
theorem catchP_error {α : Type} (e : String) (w : World) (h : String → Task α) :
    catchP ((.done (.error e), w) : Progress α × World) h = (h e).runToWait w := rfl

@[simp]
theorem catchP_waiting {α : Type} (ms : Nat) (k : Task α) (w : World) (h : String → Task α) :
    catchP (.waiting ms k, w) h = (.waiting ms (k.tryCatch h), w) := rfl

@[simp]
theorem finallyP_ok {α : Type} (a : α) (w : World) (fin : Task Unit) :
    finallyP (.done (.ok a), w) fin = thenP (fin.runToWait w) (fun _ => Task.ret a) := rfl

@[simp]
theorem finallyP_error {α : Type} (e : String) (w : World) (fin : Task Unit) :
    finallyP ((.done (.error e), w) : Progress α × World) fin =
      thenP (fin.runToWait w) (fun _ => Task.throw e) := rfl

@[simp]
theorem finallyP_waiting {α : Type} (ms : Nat) (k : Task α) (w : World) (fin : Task Unit) :
    finallyP (.waiting ms k, w) fin = (.waiting ms (k.tryFinally fin), w) := rfl

@[simp]
theorem thenP_ite {α β : Type} (c : Prop) [Decidable c] (x y : Progress α × World)
    (f : α → Task β) : thenP (if c then x else y) f = if c then thenP x f else thenP y f := by
  split <;> rfl

@[simp]
theorem catchP_ite {α : Type} (c : Prop) [Decidable c] (x y : Progress α × World)
    (h : String → Task α) : catchP (if c then x else y) h = if c then catchP x h else catchP y h := by
  split <;> rfl

@[simp]
theorem finallyP_ite {α : Type} (c : Prop) [Decidable c] (x y : Progress α × World)
    (fin : Task Unit) :
    finallyP (if c then x else y) fin = if c then finallyP x fin else finallyP y fin := by
  split <;> rfl

@[simp]
theorem Task.runToWait_bind' {α β : Type} (t : Task α) (f : α → Task β) (w : World) :
    (t.bind f).runToWait w = thenP (t.runToWait w) f := by
  induction t generalizing w with
  | ret a => rfl
  | throw e => rfl
  | get k ih => exact ih w w
  | put w0 k ih => exact ih w0
  | await k ih => exact ih w
  | sleep ms k ih => rfl

@[simp]
theorem Task.runToWait_bind {α β : Type} (t : Task α) (f : α → Task β) (w : World) :
    (t >>= f).runToWait w = thenP (t.runToWait w) f :=
  Task.runToWait_bind' t f w

@[simp]
theorem Task.runToWait_tryCatch {α : Type} (t : Task α) (h : String → Task α) (w : World) :
    (t.tryCatch h).runToWait w = catchP (t.runToWait w) h := by
  induction t generalizing w with
  | ret a => rfl
  | throw e => rfl
  | get k ih => exact ih w w
  | put w0 k ih => exact ih w0
  | await k ih => exact ih w
  | sleep ms k ih => rfl

@[simp]
theorem Task.runToWait_tryFinally {α : Type} (t : Task α) (fin : Task Unit) (w : World) :
    (t.tryFinally fin).runToWait w = finallyP (t.runToWait w) fin := by
  induction t generalizing w with
  | ret a => exact Task.runToWait_bind' fin _ w
  | throw e => exact Task.runToWait_bind' fin _ w
  | get k ih => exact ih w w
  | put w0 k ih => exact ih w0
  | await k ih => exact ih w
  | sleep ms k ih => rfl

@[simp]
theorem Task.runToWait_pure {α : Type} (a : α) (w : World) :
    (pure a : Task α).runToWait w = (.done (.ok a), w) := rfl

@[simp]
theorem Task.runToWait_ret {α : Type} (a : α) (w : World) :
    (Task.ret a).runToWait w = (.done (.ok a), w) := rfl

@[simp]
theorem Task.runToWait_throw {α : Type} (e : String) (w : World) :
    (Task.throw e : Task α).runToWait w = (.done (.error e), w) := rfl

@[simp]
theorem runToWait_readWorld (w : World) : readWorld.runToWait w = (.done (.ok w), w) := rfl

@[simp]
theorem runToWait_modifyWorld (f : World → World) (w : World) :
    (modifyWorld f).runToWait w = (.done (.ok ()), f w) := rfl

@[simp]
theorem runToWait_wait (ms : Nat) (w : World) :
    (wait ms).runToWait w = (.waiting ms (Task.ret ()), w) := rfl

@[simp]
theorem Task.runToWait_ite {α : Type} (c : Prop) [Decidable c] (a b : Task α) (w : World) :
    (if c then a else b).runToWait w = if c then a.runToWait w else b.runToWait w := by
  split <;> rfl

@[simp]
theorem Task.runToWait_get {α : Type} (k : World → Task α) (w : World) :
    (Task.get k).runToWait w = (k w).runToWait w := rfl

@[simp]
theorem Task.runToWait_put {α : Type} (w0 : World) (k : Task α) (w : World) :
    (Task.put w0 k).runToWait w = k.runToWait w0 := rfl

@[simp]
theorem Task.runToWait_await {α : Type} (k : Task α) (w : World) :
    (Task.await k).runToWait w = k.runToWait w := rfl

@[simp]
theorem runToWait_settle (w : World) : settle.runToWait w = (.done (.ok ()), w) := rfl

/-! ## The timer table -/

/-- The timer table a granted `startLocationUpdates` leaves, in closed form. -/
theorem start_granted_intervals (w : World) (sms : AlertOutcome) :
    ∃ rest : List Interval,
      (dispatch (fun r => startLocationUpdates r "granted" sms) w).intervals =
        (if idTruthy w.react.intervalId then
            w.intervals.filter (fun i => i.id ≠ w.react.intervalId.getD 0)
          else w.intervals) ++ locationInterval w :: rest ∧
      (∀ i ∈ rest, i.callback = .recordAndSendAudio ∧ i.id = w.lastTimerId + 2) ∧
      (dispatch (fun r => startLocationUpdates r "granted" sms) w).react.intervalId =
        some (w.lastTimerId + 1) ∧
      w.lastTimerId + 1 ≤ (dispatch (fun r => startLocationUpdates r "granted" sms) w).lastTimerId ∧
      (rest ≠ [] → (dispatch (fun r => startLocationUpdates r "granted" sms) w).lastTimerId = w.lastTimerId + 2) ∧
      (dispatch (fun r => startLocationUpdates r "granted" sms) w).effectEnv = w.effectEnv ∧
      (¬ (w.react.isMicEnabled = true ∧ w.react.isRecording = false) → rest = []) := by
  by_cases hm : w.react.isMicEnabled = true ∧ w.react.isRecording = false
  · refine ⟨[{ id := w.lastTimerId + 2, period := 20000, due := w.now + 20000, armedAt := w.now,
               callback := .recordAndSendAudio, env := w.react }], ?_⟩
    rcases sms with _ | ⟨ok, js⟩ <;>
      simp [dispatch, startLocationUpdates, sendSms, setLoading, clearInterval, setInterval,
        setIntervalId, startRecordingLoop, setIsRecording, locationInterval, hm.1, hm.2] <;>
      split_ifs <;> simp
  · refine ⟨[], ?_⟩
    rcases sms with _ | ⟨ok, js⟩ <;>
      simp [dispatch, startLocationUpdates, sendSms, setLoading, clearInterval, setInterval,
        setIntervalId, startRecordingLoop, setIsRecording, locationInterval] <;>
      split_ifs <;> simp_all

/-- A positive id is truthy. -/
theorem idTruthy_some {n : Nat} (h : 0 < n) : idTruthy (some n) = true := by
  simp [idTruthy]; omega

/-- A granted start from a well-formed timer table: the id held before is the
id of no live interval, the new location interval is the only one live, the
cell holds its id, and the table is well formed again. -/
theorem start_granted_spec (w : World) (sms : AlertOutcome) (hwf : TimersWF w) :
    (∀ n, w.react.intervalId = some n →
      ∀ i ∈ (dispatch (fun r => startLocationUpdates r "granted" sms) w).intervals, i.id ≠ n) ∧
    liveOn .locationTick (dispatch (fun r => startLocationUpdates r "granted" sms) w) =
      [locationInterval w] ∧
    (dispatch (fun r => startLocationUpdates r "granted" sms) w).react.intervalId =
      some (locationInterval w).id ∧
    TimersWF (dispatch (fun r => startLocationUpdates r "granted" sms) w) := by
  obtain ⟨hid, hcell, henv, hloc⟩ := hwf
  obtain ⟨rest, hints, hrest, hnew, hlast, hlast2, heff, -⟩ := start_granted_intervals w sms
  -- what is left of the old table holds no location interval
  have hold : ∀ i ∈ (if idTruthy w.react.intervalId then
            w.intervals.filter (fun i => i.id ≠ w.react.intervalId.getD 0)
          else w.intervals), i ∈ w.intervals ∧ i.callback ≠ .locationTick ∧
            ∀ n, w.react.intervalId = some n → i.id ≠ n := by
    intro i hi
    split_ifs at hi with ht
    · rw [List.mem_filter] at hi
      refine ⟨hi.1, ?_, ?_⟩
      · intro hc
        have := hloc i hi.1 hc
        simp [this] at hi
      · intro n hn
        simpa [hn] using hi.2
    · refine ⟨hi, ?_, ?_⟩
      · intro hc
        have h1 := hloc i hi hc
        have h2 := (hid i hi).1
        rw [h1, idTruthy_some h2] at ht
        exact ht rfl
      · intro n hn heq
        have h2 := (hid i hi).1
        rw [hn, idTruthy_some (heq ▸ h2)] at ht
        exact ht rfl
  refine ⟨?_, ?_, ?_, ?_⟩
  · intro n hn i hi
    rw [hints, List.mem_append, List.mem_cons] at hi
    rcases hi with hi | hi | hi
    · exact (hold i hi).2.2 n hn
    · have := hcell n hn
      rw [hi]; simp [locationInterval]; omega
    · have := hcell n hn
      rw [(hrest i hi).2]; omega
  · unfold liveOn
    rw [hints, List.filter_append, List.filter_cons]
    have h1 : List.filter (fun i => decide (i.callback = Callback.locationTick))
        (if idTruthy w.react.intervalId then
            w.intervals.filter (fun i => i.id ≠ w.react.intervalId.getD 0)
          else w.intervals) = [] := by
      rw [List.filter_eq_nil_iff]
      intro i hi
      simpa using (hold i hi).2.1
    have h2 : List.filter (fun i => decide (i.callback = Callback.locationTick)) rest = [] := by
      rw [List.filter_eq_nil_iff]
      intro i hi
      simp [(hrest i hi).1]
    rw [h1, h2]
    simp [locationInterval]
  · rw [hnew]; rfl
  · refine ⟨?_, ?_, ?_, ?_⟩
    · intro i hi
      rw [hints, List.mem_append, List.mem_cons] at hi
      rcases hi with hi | hi | hi
      · have := hid i (hold i hi).1
        omega
      · rw [hi]; simp [locationInterval]; omega
      · have hne : rest ≠ [] := List.ne_nil_of_mem hi
        rw [(hrest i hi).2, hlast2 hne]; omega
    · intro n hn
      rw [hnew] at hn
      cases hn
      omega
    · intro n hn
      rw [heff] at hn
      have := henv n hn
      omega
    · intro i hi hc
      rw [hints, List.mem_append, List.mem_cons] at hi
      rcases hi with hi | hi | hi
      · exact absurd hc (hold i hi).2.1
      · rw [hnew, hi]; rfl
      · rw [(hrest i hi).1] at hc
        cases hc

/-- Clearing a timer, changing cells other than `intervalId`, and installing
the current render as the effect's closure keep the timer table well formed. -/
theorem timersWF_of_sub {w w1 : World} (hwf : TimersWF w)
    (hints : ∀ i ∈ w1.intervals, i ∈ w.intervals)
    (hlast : w1.lastTimerId = w.lastTimerId)
    (hcell : w1.react.intervalId = w.react.intervalId ∨ w1.react.intervalId = none ∧
      ∀ i ∈ w1.intervals, i.callback ≠ .locationTick)
    (heff : w1.effectEnv.intervalId = w.effectEnv.intervalId ∨
      w1.effectEnv.intervalId = w.react.intervalId) : TimersWF w1 := by
  obtain ⟨hid, hc, he, hloc⟩ := hwf
  refine ⟨?_, ?_, ?_, ?_⟩
  · intro i hi
    rw [hlast]
    exact hid i (hints i hi)
  · intro n hn
    rw [hlast]
    rcases hcell with h | h
    · exact hc n (h ▸ hn)
    · rw [h.1] at hn; cases hn
  · intro n hn
    rw [hlast]
    rcases heff with h | h
    · exact he n (h ▸ hn)
    · exact hc n (h ▸ hn)
  · intro i hi hcb
    rcases hcell with h | h
    · rw [h]; exact hloc i (hints i hi) hcb
    · exact absurd hcb (h.2 i hi)

/-- The render after a handler keeps the timer table well formed. -/
theorem timersWF_commit (w : World) (hwf : TimersWF w) : TimersWF (commit w) := by
  unfold commit
  split_ifs with hdep
  · exact hwf
  · apply timersWF_of_sub hwf
    · intro i hi
      revert hi
      simp [intervalCleanup, stopRecordingLoop, clearInterval, setIsRecording]
      split_ifs <;> simp <;> intros <;> assumption
    · simp [intervalCleanup, stopRecordingLoop, clearInterval, setIsRecording]
      split_ifs <;> rfl
    · left
      simp [intervalCleanup, stopRecordingLoop, clearInterval, setIsRecording]
      split_ifs <;> rfl
    · right; rfl


/-- Well-formedness reads four components of the world only. -/
theorem timersWF_congr {w w1 : World} (hwf : TimersWF w)
    (h1 : w1.intervals = w.intervals) (h2 : w1.lastTimerId = w.lastTimerId)
    (h3 : w1.react.intervalId = w.react.intervalId)
    (h4 : w1.effectEnv.intervalId = w.effectEnv.intervalId) : TimersWF w1 := by
  unfold TimersWF
  rw [h1, h2, h3, h4]
  exact hwf

/-- Registering capture intervals with fresh ids keeps the table well formed. -/
theorem timersWF_of_capture {w w1 : World} (hwf : TimersWF w) (rest : List Interval)
    (hints : w1.intervals = w.intervals ++ rest)
    (hrest : ∀ i ∈ rest, i.callback = .recordAndSendAudio ∧ i.id = w.lastTimerId + 1)
    (hlast : w.lastTimerId ≤ w1.lastTimerId ∧ (rest ≠ [] → w1.lastTimerId = w.lastTimerId + 1))
    (h3 : w1.react.intervalId = w.react.intervalId)
    (h4 : w1.effectEnv.intervalId = w.effectEnv.intervalId) : TimersWF w1 := by
  obtain ⟨hid, hc, he, hloc⟩ := hwf
  refine ⟨?_, ?_, ?_, ?_⟩
  · intro i hi
    rw [hints, List.mem_append] at hi
    rcases hi with hi | hi
    · have := hid i hi
      omega
    · rw [(hrest i hi).2, hlast.2 (List.ne_nil_of_mem hi)]
      omega
  · intro n hn
    have := hc n (h3 ▸ hn)
    omega
  · intro n hn
    have := he n (h4 ▸ hn)
    omega
  · intro i hi hcb
    rw [hints, List.mem_append] at hi
    rcases hi with hi | hi
    · rw [h3]; exact hloc i hi hcb
    · rw [(hrest i hi).1] at hcb
      cases hcb

/-- `stopLocationUpdates` keeps the timer table well formed. -/
theorem timersWF_stopLocationUpdates (w : World) (hwf : TimersWF w) :
    TimersWF (dispatch stopLocationUpdates w) := by
  by_cases ht : idTruthy w.react.intervalId = true
  · apply timersWF_of_sub hwf
    · intro i
      simp [dispatch, stopLocationUpdates, stopRecordingLoop, clearInterval, setIsRecording,
        setIntervalId, setLocation, ht]
      split_ifs <;> simp <;> intros <;> assumption
    · simp [dispatch, stopLocationUpdates, stopRecordingLoop, clearInterval, setIsRecording,
        setIntervalId, setLocation, ht]
      split_ifs <;> rfl
    · right
      have hkeep : ∀ i ∈ w.intervals, i.id ≠ w.react.intervalId.getD 0 →
          i.callback ≠ .locationTick := by
        intro i hi hne hcb
        have := hwf.2.2.2 i hi hcb
        simp [this] at hne
      simp [dispatch, stopLocationUpdates, stopRecordingLoop, clearInterval, setIsRecording,
        setIntervalId, setLocation, ht]
      split_ifs <;> simp <;> exact fun i hi hne => hkeep i hi hne
    · left
      simp [dispatch, stopLocationUpdates, stopRecordingLoop, clearInterval, setIsRecording,
        setIntervalId, setLocation, ht]
      split_ifs <;> rfl
  · apply timersWF_congr hwf <;>
      simp [dispatch, stopLocationUpdates, stopRecordingLoop, clearInterval, setIsRecording,
        setIntervalId, setLocation, ht] <;>
      split_ifs <;> rfl

set_option maxHeartbeats 800000 in
/-- Every user event keeps the timer table well formed. -/
theorem timersWF_step (w : World) (e : Event) (hwf : TimersWF w) : TimersWF (step w e) := by
  apply timersWF_commit
  cases e with
  | toggleSwitch status sms =>
    by_cases hen : w.react.isEnabled = true
    · apply timersWF_congr (timersWF_stopLocationUpdates w hwf) <;>
        simp [dispatch, Event.handler, toggleSwitch, setIsEnabled, hen, stopLocationUpdates,
          stopRecordingLoop, clearInterval, setIsRecording, setIntervalId, setLocation] <;>
        split_ifs <;> rfl
    · by_cases hst : status = "granted"
      · subst hst
        apply timersWF_congr (start_granted_spec w sms hwf).2.2.2 <;>
          rcases sms with _ | ⟨ok, js⟩ <;>
          simp [dispatch, Event.handler, toggleSwitch, setIsEnabled, hen, detach,
            startLocationUpdates, sendSms, setLoading, clearInterval, setInterval,
            setIntervalId, startRecordingLoop, setIsRecording] <;>
          split_ifs <;> rfl
      · apply timersWF_congr hwf <;>
          simp [dispatch, Event.handler, toggleSwitch, setIsEnabled, hen, detach,
            startLocationUpdates, setLoading, alert, hst]
  | enableMic ok =>
    by_cases hr : ok = true ∧ w.react.isRecording = false
    · apply timersWF_of_capture hwf
        [{ id := w.lastTimerId + 1, period := 20000, due := w.now + 20000, armedAt := w.now,
           callback := .recordAndSendAudio, env := w.react }] <;>
        simp [dispatch, Event.handler, enableMic, setAudioModeAsync, setIsMicEnabled,
          setIsRecording, alert, startRecordingLoop, setInterval, hr.1, hr.2]
    · apply timersWF_congr hwf <;>
        simp [dispatch, Event.handler, enableMic, setAudioModeAsync, setIsMicEnabled,
          setIsRecording, alert, startRecordingLoop, setInterval] <;>
        split_ifs <;> simp_all
  | stopMic =>
    apply timersWF_congr hwf <;>
      simp [dispatch, Event.handler, stopMic, setIsMicEnabled, setIsRecording, alert,
        stopRecordingLoop, clearInterval]

/-- The mounted component has a well-formed (empty) timer table. -/
theorem timersWF_initialWorld : TimersWF initialWorld := by
  simp [TimersWF, initialWorld, initialState]

/-- Every state reached from the mounted component by user events has a
well-formed timer table. -/
theorem timersWF_runEvents (es : List Event) : TimersWF (runEvents initialWorld es) := by
  suffices h : ∀ w, TimersWF w → TimersWF (runEvents w es) from h _ timersWF_initialWorld
  induction es with
  | nil => intro w hw; exact hw
  | cons e es ih => intro w hw; exact ih _ (timersWF_step w e hw)

/-! ## C1: what `stopLocationUpdates` cancels -/

/-- C1, evaluated on the code.  After `enableMic` and an activation with
permission granted, one location interval and one capture interval are live.
`stopLocationUpdates` then clears the location interval only: the capture
interval is still live, and twenty seconds later `recordAndSendAudio` has run
(it has called `startAsync` on a new recording). -/
theorem stopLocationUpdates_keeps_capture_interval :
    (liveOn .locationTick
      (runEvents initialWorld
        [.enableMic true, .toggleSwitch "granted" (.response true true)])).length = 1 ∧
    (liveOn .recordAndSendAudio
      (runEvents initialWorld
        [.enableMic true, .toggleSwitch "granted" (.response true true)])).length = 1 ∧
    (liveOn .locationTick
      (dispatch stopLocationUpdates
        (runEvents initialWorld
          [.enableMic true, .toggleSwitch "granted" (.response true true)]))).length = 0 ∧
    (liveOn .recordAndSendAudio
      (dispatch stopLocationUpdates
        (runEvents initialWorld
          [.enableMic true, .toggleSwitch "granted" (.response true true)]))).length = 1 ∧
    (runUntil (allOk "file:///rec.3gp") 20000 4
      { world := dispatch stopLocationUpdates
          (runEvents initialWorld
            [.enableMic true, .toggleSwitch "granted" (.response true true)]),
        pending := [] }).map (fun s => s.world.audioCalls) =
      some [.setAudioMode, .setAudioMode, .prepareToRecord 1, .start 1] := by
  refine ⟨?_, ?_, ?_, ?_, ?_⟩ <;> decide

/-! ## C2: how many capture intervals can be live -/

/-- C2, evaluated on the code.  After `enableMic`, `stopMic`, `enableMic` two
intervals scheduled on `recordAndSendAudio` are live: `stopMic` cancelled
none. -/
theorem enableMic_stopMic_enableMic_stacks_intervals :
    (liveOn .recordAndSendAudio
      (runEvents initialWorld [.enableMic true])).length = 1 ∧
    (liveOn .recordAndSendAudio
      (runEvents initialWorld [.enableMic true, .stopMic])).length = 1 ∧
    (liveOn .recordAndSendAudio
      (runEvents initialWorld [.enableMic true, .stopMic, .enableMic true])).length = 2 := by
  refine ⟨?_, ?_, ?_⟩ <;> decide

/-! ## C3: one location interval -/

/-- C3.  From every state whose timer table is well formed (every state the
events reach is), when `startLocationUpdates` completes with permission
granted: the id that `intervalId` held is the id of no live interval, exactly
one interval on the location tick is live, it has period 10 s and its id is
the one now held by `intervalId`; and the same holds after a second call made
from the render that follows the first, so one location tick fires per 10 s. -/
theorem startLocationUpdates_one_location_interval (w : World) (sms sms2 : AlertOutcome)
    (hwf : TimersWF w) :
    (∀ n, w.react.intervalId = some n → ∀ i ∈ (startGranted sms w).intervals, i.id ≠ n) ∧
    (∃ i, liveOn .locationTick (startGranted sms w) = [i] ∧ i.period = 10000 ∧
      (startGranted sms w).react.intervalId = some i.id) ∧
    (∀ n, (startGranted sms w).react.intervalId = some n →
      ∀ i ∈ (startGranted sms2 (commit (startGranted sms w))).intervals, i.id ≠ n) ∧
    (∃ j, liveOn .locationTick (startGranted sms2 (commit (startGranted sms w))) = [j] ∧
      j.period = 10000 ∧
      (startGranted sms2 (commit (startGranted sms w))).react.intervalId = some j.id) := by
  have h1 := start_granted_spec w sms hwf
  have hwf2 := timersWF_commit _ h1.2.2.2
  have h2 := start_granted_spec _ sms2 hwf2
  have hcell : (commit (startGranted sms w)).react.intervalId =
      (startGranted sms w).react.intervalId := by
    unfold commit
    split_ifs
    · rfl
    · simp [intervalCleanup, stopRecordingLoop, clearInterval, setIsRecording]
      split_ifs <;> rfl
  refine ⟨h1.1, ⟨_, h1.2.1, rfl, h1.2.2.1⟩, ?_, ⟨_, h2.2.1, rfl, h2.2.2.1⟩⟩
  intro n hn
  exact h2.1 n (hcell ▸ hn)

/-- C3 at the state reached by one activation, where the location interval
with id 1 is live and stored: a further `startLocationUpdates` clears it and
leaves exactly one location interval, and so does the next. -/
theorem startLocationUpdates_one_location_interval_witness :
    TimersWF (runEvents initialWorld [.toggleSwitch "granted" (.response true true)]) ∧
    ((∀ n, (runEvents initialWorld
          [.toggleSwitch "granted" (.response true true)]).react.intervalId = some n →
        ∀ i ∈ (startGranted .networkError (runEvents initialWorld
          [.toggleSwitch "granted" (.response true true)])).intervals, i.id ≠ n) ∧
      (∃ i, liveOn .locationTick (startGranted .networkError (runEvents initialWorld
          [.toggleSwitch "granted" (.response true true)])) = [i] ∧ i.period = 10000 ∧
        (startGranted .networkError (runEvents initialWorld
          [.toggleSwitch "granted" (.response true true)])).react.intervalId = some i.id) ∧
      (∀ n, (startGranted .networkError (runEvents initialWorld
          [.toggleSwitch "granted" (.response true true)])).react.intervalId = some n →
        ∀ i ∈ (startGranted .networkError (commit (startGranted .networkError
          (runEvents initialWorld
            [.toggleSwitch "granted" (.response true true)])))).intervals, i.id ≠ n) ∧
      (∃ j, liveOn .locationTick (startGranted .networkError (commit
          (startGranted .networkError (runEvents initialWorld
            [.toggleSwitch "granted" (.response true true)])))) = [j] ∧
        j.period = 10000 ∧
        (startGranted .networkError (commit (startGranted .networkError
          (runEvents initialWorld
            [.toggleSwitch "granted" (.response true true)])))).react.intervalId =
          some j.id)) :=
  ⟨timersWF_runEvents _,
   startLocationUpdates_one_location_interval
      (runEvents initialWorld [.toggleSwitch "granted" (.response true true)])
      .networkError .networkError (timersWF_runEvents _)⟩

/-! ## C4: a denied permission -/

/-- C4 as stated fails.  On the mounted component (`isEnabled = false`),
`toggleSwitch` with the permission status `"denied"` leaves `isEnabled = true`. -/
theorem toggleSwitch_denied_enables :
    initialWorld.react.isEnabled = false ∧
    (dispatch (fun r => toggleSwitch r "denied" (.response true true)) initialWorld).react.isEnabled
      ≠ false := by
  decide

/-- C4, amended.  For every state with `isEnabled = false`, when `toggleSwitch`
runs and the permission status is not `"granted"`: `isEnabled` has been flipped
to `true`, `intervalId` and the timer table are unchanged, no alert request has
been sent, `loading` is `false`, and the permission dialog has been shown. -/
theorem toggleSwitch_denied (w : World) (status : String) (sms : AlertOutcome)
    (hoff : w.react.isEnabled = false) (hden : status ≠ "granted") :
    (dispatch (fun r => toggleSwitch r status sms) w).react.isEnabled = true ∧
    (dispatch (fun r => toggleSwitch r status sms) w).react.intervalId = w.react.intervalId ∧
    (dispatch (fun r => toggleSwitch r status sms) w).intervals = w.intervals ∧
    (dispatch (fun r => toggleSwitch r status sms) w).lastTimerId = w.lastTimerId ∧
    (dispatch (fun r => toggleSwitch r status sms) w).alertPosts = w.alertPosts ∧
    (dispatch (fun r => toggleSwitch r status sms) w).react.loading = false ∧
    (dispatch (fun r => toggleSwitch r status sms) w).dialogs =
      w.dialogs ++ ["Permission required"] := by
  simp [dispatch, toggleSwitch, setIsEnabled, detach, startLocationUpdates, setLoading, alert,
    hoff, hden]

/-- C4, amended, on the mounted component with the status `"denied"`. -/
theorem toggleSwitch_denied_witness :
    initialWorld.react.isEnabled = false ∧ "denied" ≠ "granted" ∧
    ((dispatch (fun r => toggleSwitch r "denied" .networkError) initialWorld).react.isEnabled
        = true ∧
      (dispatch (fun r => toggleSwitch r "denied" .networkError) initialWorld).react.intervalId
        = initialWorld.react.intervalId ∧
      (dispatch (fun r => toggleSwitch r "denied" .networkError) initialWorld).intervals
        = initialWorld.intervals ∧
      (dispatch (fun r => toggleSwitch r "denied" .networkError) initialWorld).lastTimerId
        = initialWorld.lastTimerId ∧
      (dispatch (fun r => toggleSwitch r "denied" .networkError) initialWorld).alertPosts
        = initialWorld.alertPosts ∧
      (dispatch (fun r => toggleSwitch r "denied" .networkError) initialWorld).react.loading
        = false ∧
      (dispatch (fun r => toggleSwitch r "denied" .networkError) initialWorld).dialogs
        = initialWorld.dialogs ++ ["Permission required"]) :=
  ⟨rfl, by decide, toggleSwitch_denied initialWorld "denied" .networkError rfl (by decide)⟩

/-! ## C5: `enableMic` while the session is inactive -/

/-- C5 as stated fails.  On the mounted component (`isEnabled = false`,
`isRecording = false`) a successful `enableMic` leaves one live interval on
`recordAndSendAudio`. -/
theorem enableMic_inactive_schedules_capture :
    initialWorld.react.isEnabled = false ∧ initialWorld.react.isRecording = false ∧
    (dispatch (fun r => enableMic r true) initialWorld).react.isMicEnabled = true ∧
    (liveOn .recordAndSendAudio initialWorld).length = 0 ∧
    (liveOn .recordAndSendAudio (dispatch (fun r => enableMic r true) initialWorld)).length
      ≠ 0 := by
  decide

/-- C5, amended.  For every state with `isRecording = false`, whatever
`isEnabled` is, a successful `enableMic` sets `isMicEnabled` and `isRecording`
and itself registers exactly one interval on `recordAndSendAudio`, of period
20000 ms; a successful `startLocationUpdates` that then reads these cells
registers no interval on `recordAndSendAudio`. -/
theorem enableMic_schedules_capture (w : World) (sms : AlertOutcome)
    (hrec : w.react.isRecording = false) :
    (dispatch (fun r => enableMic r true) w).react.isMicEnabled = true ∧
    (dispatch (fun r => enableMic r true) w).react.isRecording = true ∧
    (dispatch (fun r => enableMic r true) w).react.isEnabled = w.react.isEnabled ∧
    (dispatch (fun r => enableMic r true) w).intervals = w.intervals ++
      [{ id := w.lastTimerId + 1, period := 20000, due := w.now + 20000, armedAt := w.now,
         callback := .recordAndSendAudio, env := w.react }] ∧
    (∀ i ∈ (startGranted sms (dispatch (fun r => enableMic r true) w)).intervals,
      i ∈ (dispatch (fun r => enableMic r true) w).intervals ∨ i.callback = .locationTick) := by
  have hints : (dispatch (fun r => enableMic r true) w).intervals = w.intervals ++
      [{ id := w.lastTimerId + 1, period := 20000, due := w.now + 20000, armedAt := w.now,
         callback := .recordAndSendAudio, env := w.react }] := by
    simp [dispatch, enableMic, setAudioModeAsync, setIsMicEnabled, setIsRecording, alert,
      startRecordingLoop, setInterval, hrec]
  have hr : (dispatch (fun r => enableMic r true) w).react.isRecording = true := by
    simp [dispatch, enableMic, setAudioModeAsync, setIsMicEnabled, setIsRecording, alert,
      startRecordingLoop, setInterval, hrec]
  refine ⟨?_, hr, ?_, hints, ?_⟩
  · simp [dispatch, enableMic, setAudioModeAsync, setIsMicEnabled, setIsRecording, alert,
      startRecordingLoop, setInterval, hrec]
  · simp [dispatch, enableMic, setAudioModeAsync, setIsMicEnabled, setIsRecording, alert,
      startRecordingLoop, setInterval, hrec]
  · obtain ⟨rest, h1, -, -, -, -, -, h7⟩ :=
      start_granted_intervals (dispatch (fun r => enableMic r true) w) sms
    have hnil : rest = [] := h7 (by simp [hr])
    intro i hi
    unfold startGranted at hi
    rw [h1, hnil, List.mem_append, List.mem_singleton] at hi
    rcases hi with hi | hi
    · left
      split_ifs at hi
      · exact (List.mem_filter.mp hi).1
      · exact hi
    · right
      rw [hi]; rfl

/-- C5, amended, on the mounted component. -/
theorem enableMic_schedules_capture_witness :
    initialWorld.react.isRecording = false ∧
    ((dispatch (fun r => enableMic r true) initialWorld).react.isMicEnabled = true ∧
      (dispatch (fun r => enableMic r true) initialWorld).react.isRecording = true ∧
      (dispatch (fun r => enableMic r true) initialWorld).react.isEnabled =
        initialWorld.react.isEnabled ∧
      (dispatch (fun r => enableMic r true) initialWorld).intervals = initialWorld.intervals ++
        [{ id := initialWorld.lastTimerId + 1, period := 20000, due := initialWorld.now + 20000,
           armedAt := initialWorld.now, callback := .recordAndSendAudio,
           env := initialWorld.react }] ∧
      (∀ i ∈ (startGranted (.response true true)
            (dispatch (fun r => enableMic r true) initialWorld)).intervals,
        i ∈ (dispatch (fun r => enableMic r true) initialWorld).intervals ∨
          i.callback = .locationTick)) :=
  ⟨rfl, enableMic_schedules_capture initialWorld (.response true true) rfl⟩


/-! ## C6: the first position fix -/

/-- C6 as stated fails.  On the mounted component, when `startLocationUpdates`
completes with permission granted the store key and the `location` cell are
still empty, whatever fix the position source would give: no fix is requested
before the first tick.  With the fixes `{12.9, 77.6}` at 10 s and
`{12.91, 77.61}` at 20 s, nothing is written before 10 s. -/
theorem startLocationUpdates_publishes_nothing :
    (startGranted (.response true true) initialWorld).store ≠ .coords 12.9 77.6 ∧
    (startGranted (.response true true) initialWorld).react.location ≠ .coords 12.9 77.6 ∧
    (runUntil scenarioFixes 9999 2
        { world := startGranted (.response true true) initialWorld, pending := [] }).map
      (fun s => (s.world.store, s.world.react.location, s.world.storeWrites)) =
      some (.null, .null, []) := by
  refine ⟨?_, ?_, rfl⟩
  · intro h
    have h0 : (startGranted (.response true true) initialWorld).store = .null := rfl
    rw [h0] at h
    cases h
  · intro h
    have h0 : (startGranted (.response true true) initialWorld).react.location = .null := rfl
    rw [h0] at h
    cases h

/-- C6, amended.  When `startLocationUpdates` completes with permission granted
the store key, the writes made to it and the `location` cell are unchanged and
the location interval is live; after its first tick with a fix `(lat, lon)`
the store key and the `location` cell both hold `{latitude: lat, longitude: lon}`,
and after the next tick with a fix `(lat2, lon2)` both hold that one.  On the
mounted component with the fixes `{12.9, 77.6}` then `{12.91, 77.61}`: the
first is published at 10 s and the second overwrites it at 20 s. -/
theorem startLocationUpdates_then_ticks (w : World) (sms : AlertOutcome)
    (lat lon lat2 lon2 : Rat) :
    (startGranted sms w).store = w.store ∧
    (startGranted sms w).storeWrites = w.storeWrites ∧
    (startGranted sms w).react.location = w.react.location ∧
    locationInterval w ∈ (startGranted sms w).intervals ∧
    ((locationTick (some (lat, lon)) true).run (startGranted sms w)).2.store =
      .coords lat lon ∧
    ((locationTick (some (lat, lon)) true).run (startGranted sms w)).2.react.location =
      .coords lat lon ∧
    ((locationTick (some (lat2, lon2)) true).run
      ((locationTick (some (lat, lon)) true).run (startGranted sms w)).2).2.store =
      .coords lat2 lon2 ∧
    ((locationTick (some (lat2, lon2)) true).run
      ((locationTick (some (lat, lon)) true).run (startGranted sms w)).2).2.react.location =
      .coords lat2 lon2 ∧
    ((locationTick (some (lat2, lon2)) true).run
      ((locationTick (some (lat, lon)) true).run (startGranted sms w)).2).2.storeWrites =
      w.storeWrites ++ [.coords lat lon, .coords lat2 lon2] ∧
    (runUntil scenarioFixes 10000 2
        { world := startGranted (.response true true) initialWorld, pending := [] }).map
      (fun s => (s.world.store, s.world.react.location, s.world.storeWrites)) =
      some (.coords 12.9 77.6, .coords 12.9 77.6, [.coords 12.9 77.6]) ∧
    (runUntil scenarioFixes 20000 2
        { world := startGranted (.response true true) initialWorld, pending := [] }).map
      (fun s => (s.world.store, s.world.react.location, s.world.storeWrites)) =
      some (.coords 12.91 77.61, .coords 12.91 77.61,
        [.coords 12.9 77.6, .coords 12.91 77.61]) := by
  have hstart : (startGranted sms w).store = w.store ∧
      (startGranted sms w).storeWrites = w.storeWrites ∧
      (startGranted sms w).react.location = w.react.location := by
    rcases sms with _ | ⟨ok, js⟩ <;>
      simp [startGranted, dispatch, startLocationUpdates, sendSms, setLoading, clearInterval,
        setInterval, setIntervalId, startRecordingLoop, setIsRecording] <;>
      split_ifs <;> simp
  obtain ⟨rest, hints, -⟩ := start_granted_intervals w sms
  refine ⟨hstart.1, hstart.2.1, hstart.2.2, ?_, ?_, ?_, ?_, ?_, ?_, rfl, rfl⟩
  · unfold startGranted
    rw [hints]
    simp
  all_goals
    simp [locationTick, getCurrentPositionAsync, setLocation, setStore, hstart.2.1]

/-! ## C7: a failed periodic fix -/

/-- The tick callback never throws, whatever the fix and the store answer. -/
theorem locationTick_returns (fix : Option (Rat × Rat)) (setOk : Bool) (w : World) :
    ((locationTick fix setOk).run w).1 = .ok () := by
  rcases fix with _ | c <;> cases setOk <;>
    simp [locationTick, getCurrentPositionAsync, setLocation, setStore]

/-- A tick keeps the timer table, and writes the fix if there is one. -/
theorem locationTick_effect (fix : Option (Rat × Rat)) (w : World) :
    ((locationTick fix true).run w).2.intervals = w.intervals ∧
    ((locationTick fix true).run w).2.storeWrites =
      w.storeWrites ++ (fix.map fixValue).toList := by
  rcases fix with _ | c <;>
    simp [locationTick, getCurrentPositionAsync, setLocation, setStore, fixValue]

/-- A sequence of ticks keeps the timer table and writes the fixes in order. -/
theorem runTicks_effect (fixes : List (Option (Rat × Rat))) :
    ∀ w : World, (runTicks w fixes).intervals = w.intervals ∧
      (runTicks w fixes).storeWrites = w.storeWrites ++ (fixes.filterMap id).map fixValue := by
  induction fixes with
  | nil => intro w; simp [runTicks]
  | cons fix fixes ih =>
    intro w
    have h := locationTick_effect fix w
    have h2 := ih ((locationTick fix true).run w).2
    simp only [runTicks, List.foldl_cons] at h2 ⊢
    rw [h2.1, h2.2, h.1, h.2]
    rcases fix with _ | c <;> simp

/-- C7.  For every sequence of outcomes of `getCurrentPositionAsync` over
consecutive location ticks (a fix, or a throw written `none`), every store
write succeeding: no tick callback throws, the timer table is unchanged (the
location interval stays live), and the values written to `locations/current`
are exactly the fixes that succeeded, in order.  In particular when the only
failure is at tick `before.length`, the `N = before.length + 1 + after.length`
ticks make exactly `N - 1` writes. -/
theorem locationTicks_survive_failures (w : World) (fixes : List (Option (Rat × Rat)))
    (before after : List (Rat × Rat)) :
    (∀ (w1 : World) (fix : Option (Rat × Rat)), ((locationTick fix true).run w1).1 = .ok ()) ∧
    (runTicks w fixes).intervals = w.intervals ∧
    (runTicks w fixes).storeWrites = w.storeWrites ++ (fixes.filterMap id).map fixValue ∧
    (runTicks w (before.map some ++ none :: after.map some)).intervals = w.intervals ∧
    (runTicks w (before.map some ++ none :: after.map some)).storeWrites =
      w.storeWrites ++ (before ++ after).map fixValue ∧
    (runTicks w (before.map some ++ none :: after.map some)).storeWrites.length =
      w.storeWrites.length + ((before.map some ++ none :: after.map some).length - 1) := by
  have h1 := runTicks_effect fixes w
  have h2 := runTicks_effect (before.map some ++ none :: after.map some) w
  have h3 : ((before.map some ++ none :: after.map some).filterMap id) = before ++ after := by
    simp [List.filterMap_append, List.filterMap_map]
  rw [h3] at h2
  refine ⟨fun w1 fix => locationTick_returns fix true w1, h1.1, h1.2, h2.1, h2.2, ?_⟩
  rw [h2.2]
  simp

/-! ## C8: failures during a capture -/

/-- Run on its own, `recordAndSendAudio` returns, releases the handle and
leaves the timer table as it found it. -/
theorem recordAndSendAudio_run (r : RState) (o : CaptureOutcome) (w : World) :
    ((recordAndSendAudio r o).run w).1 = .ok () ∧
    ((recordAndSendAudio r o).run w).2.recordingRef = none ∧
    ((recordAndSendAudio r o).run w).2.intervals = w.intervals := by
  rcases h : w.recordingRef with _ | h0 <;>
    simp [recordAndSendAudio, uriTruthy, setRecordingVar, setRecordingRef, setAudioModeAsync,
      newRecording, onRecording, setIsRecording, postPredict, h] <;>
    split_ifs <;> simp

/-- Whatever runs during its suspensions, `recordAndSendAudio` returns. -/
theorem recordAndSendAudio_returns (r : RState) (o : CaptureOutcome) (w : World)
    (others : Nat → World → World) :
    ((recordAndSendAudio r o).runWith others (w, 0)).1 = .ok () := by
  unfold recordAndSendAudio
  rw [runWith_prologue]
  refine runWith_finally_ok others _ _ _ (runWith_catch_ok others _ _) ?_
  intro s1
  simp only [Task.runWith_bind, runWith_readWorld, andThen_ok, setRecordingVar,
    setRecordingRef, runWith_modifyWorld, Task.runWith_ite, Task.runWith_pure]
  split_ifs <;> rfl

/-- A call that finds a recording in `recordingRef.current` holds it in its
local variable to the end, so that its `finally` block sets
`recordingRef.current` to `null`, whatever runs during its suspensions. -/
theorem recordAndSendAudio_releases_found (r : RState) (o : CaptureOutcome) (w : World)
    (others : Nat → World → World) (h0 : Nat) (h : w.recordingRef = some h0) :
    ((recordAndSendAudio r o).runWith others (w, 0)).2.1.recordingRef = none := by
  unfold recordAndSendAudio
  rw [runWith_prologue]
  refine runWith_finally_of others _ _ _ (fun w1 => w1.recordingVar.isSome = true)
    (fun w1 => w1.recordingRef = none) ?_ ?_
  · refine keeps_runWith (fun w1 => w1.recordingVar.isSome = true) others
      (fun n w1 h1 => h1) _ ?_ _ ?_
    rotate_left
    · show (w.recordingRef).isSome = true
      rw [h]; rfl
    dsimp only
    repeat' first
      | exact keeps_readWorld
      | exact keeps_settle
      | exact keeps_wait _
      | exact keeps_pure _
      | exact keeps_throw _
      | exact keeps_onRecording _ _ _ (fun _ _ h => h)
      | exact keeps_newRecording (fun _ h => h)
      | exact keeps_modifyWorld (fun _ h => h)
      | exact keeps_modifyWorld (fun _ _ => rfl)
      | apply keeps_tryFinally
      | apply keeps_tryCatch
      | apply keeps_ite
      | apply keeps_bind
      | intro _
  · intro s1 hs1
    simp [setRecordingVar, setRecordingRef, hs1]

/-- A call that finds no recording and whose `setAudioModeAsync` resolves
constructs one and holds it in its local variable to the end, so that its
`finally` block sets `recordingRef.current` to `null`, whatever runs during its
suspensions. -/
theorem recordAndSendAudio_releases_constructed (r : RState) (o : CaptureOutcome) (w : World)
    (others : Nat → World → World) (h : w.recordingRef = none) (ha : o.audioModeOk = true) :
    ((recordAndSendAudio r o).runWith others (w, 0)).2.1.recordingRef = none := by
  unfold recordAndSendAudio
  rw [runWith_prologue]
  refine runWith_finally_of others _ _ _ (fun w1 => w1.recordingVar.isSome = true)
    (fun w1 => w1.recordingRef = none) ?_ ?_
  · rw [runWith_catch_world, Task.runWith_bind, runWith_readWorld, andThen_ok]
    dsimp only
    simp only [h, Option.isNone_none, if_true]
    have e1 : ∀ s : World × Nat, (setAudioModeAsync true).runWith others s =
        (.ok (), (meanwhile (others s.2)
          { s.1 with audioCalls := s.1.audioCalls ++ [.setAudioMode] }, s.2 + 1)) := fun _ => rfl
    have e2 : ∀ s : World × Nat, newRecording.runWith others s =
        (.ok (s.1.recordings + 1), ({ s.1 with recordings := s.1.recordings + 1 }, s.2)) :=
      fun _ => rfl
    rw [Task.runWith_bind, ha, e1, andThen_ok, Task.runWith_bind, e2, andThen_ok,
      Task.runWith_bind, setRecordingVar, runWith_modifyWorld, andThen_ok]
    refine keeps_runWith (fun w1 => w1.recordingVar.isSome = true) others
      (fun n w1 h1 => h1) _ ?_ _ rfl
    repeat' first
      | exact keeps_readWorld
      | exact keeps_settle
      | exact keeps_wait _
      | exact keeps_pure _
      | exact keeps_throw _
      | exact keeps_onRecording _ _ _ (fun _ _ h => h)
      | exact keeps_newRecording (fun _ h => h)
      | exact keeps_modifyWorld (fun _ h => h)
      | exact keeps_modifyWorld (fun _ _ => rfl)
      | apply keeps_tryFinally
      | apply keeps_tryCatch
      | apply keeps_ite
      | apply keeps_bind
      | intro _
  · intro s1 hs1
    simp [setRecordingVar, setRecordingRef, hs1]

/-- A call that finds no recording and whose `setAudioModeAsync` rejects holds
none: its `finally` block leaves `recordingRef.current` as the code that ran
while `setAudioModeAsync` was awaited left it. -/
theorem recordAndSendAudio_rejected_audio_mode (r : RState) (o : CaptureOutcome) (w : World)
    (others : Nat → World → World) (h : w.recordingRef = none) (ha : o.audioModeOk = false) :
    ((recordAndSendAudio r o).runWith others (w, 0)).2.1.recordingRef =
      (others 0 { w with recordingVar := none,
                         audioCalls := w.audioCalls ++ [.setAudioMode] }).recordingRef := by
  simp [recordAndSendAudio, uriTruthy, setRecordingVar, setRecordingRef, setAudioModeAsync,
    newRecording, onRecording, setIsRecording, postPredict, h, ha]

/-- The call clears and registers no timer: the timer table is as it was when
the code that runs during its suspensions leaves it as it was. -/
theorem recordAndSendAudio_keeps_intervals (r : RState) (o : CaptureOutcome) (w : World)
    (others : Nat → World → World)
    (hk : ∀ n w1, (others n w1).intervals = w1.intervals) :
    ((recordAndSendAudio r o).runWith others (w, 0)).2.1.intervals = w.intervals := by
  refine keeps_runWith (fun w1 => w1.intervals = w.intervals) others
    (fun n w1 h1 => (hk n w1).trans h1) _ ?_ (w, 0) rfl
  unfold recordAndSendAudio
  dsimp only
  repeat' first
    | exact keeps_readWorld
    | exact keeps_settle
    | exact keeps_wait _
    | exact keeps_pure _
    | exact keeps_throw _
    | exact keeps_onRecording _ _ _ (fun _ _ h => h)
    | exact keeps_newRecording (fun _ h => h)
    | exact keeps_modifyWorld (fun _ h => h)
    | exact keeps_modifyWorld (fun _ _ => rfl)
    | apply keeps_tryFinally
    | apply keeps_tryCatch
    | apply keeps_ite
    | apply keeps_bind
    | intro _

/-- C8 as stated fails.  After `enableMic`, `stopMic`, `enableMic` on the
mounted component two intervals on `recordAndSendAudio` are live, both due at
20 s, and `recordingRef.current` is `null`.  The call made by the first awaits
`setAudioModeAsync`; meanwhile the call made by the second starts, constructs
recording 1 and stores it in `recordingRef.current`; then `setAudioModeAsync`
rejects in the first call.  The first call returns without throwing and, its
local variable being `null`, leaves `recordingRef.current` holding recording
1. -/
theorem recordAndSendAudio_leaves_foreign_handle :
    (liveOn .recordAndSendAudio stackedWorld).map (fun i => (i.id, i.due, i.env)) =
      [(1, 20000, initialState), (2, 20000, initialState)] ∧
    stackedWorld.recordingRef = none ∧
    ((recordAndSendAudio initialState
        { captureOk "file:///rec.3gp" with audioModeOk := false }).runWith
      secondCallStarts (stackedWorld, 0)).1 = .ok () ∧
    ((recordAndSendAudio initialState
        { captureOk "file:///rec.3gp" with audioModeOk := false }).runWith
      secondCallStarts (stackedWorld, 0)).2.1.recordingRef = some 1 := by
  refine ⟨?_, ?_, ?_, ?_⟩ <;> rfl

/-- C8, amended.  For every call of `recordAndSendAudio`, whatever each awaited
step answers (a throw or not, any URI) and whatever other code does to the
world while the call is suspended, at an `await` of the platform or at one of
its two waits: the call returns without throwing.  When the call holds a
recording (it found one in `recordingRef.current`, or `setAudioModeAsync`
resolved), `recordingRef.current` is `null` when it completes; when it found
none and `setAudioModeAsync` rejects, `recordingRef.current` is what the code
that ran meanwhile left.  The call itself changes no timer, so the interval
that invoked it fires again.  Run on its own, the call returns, leaves
`recordingRef.current` `null` and the timer table as it found it. -/
theorem recordAndSendAudio_absorbs_failures (r : RState) (o : CaptureOutcome) (w : World)
    (others : Nat → World → World) :
    ((recordAndSendAudio r o).runWith others (w, 0)).1 = .ok () ∧
    ((w.recordingRef ≠ none ∨ o.audioModeOk = true) →
      ((recordAndSendAudio r o).runWith others (w, 0)).2.1.recordingRef = none) ∧
    (w.recordingRef = none → o.audioModeOk = false →
      ((recordAndSendAudio r o).runWith others (w, 0)).2.1.recordingRef =
        (others 0 { w with recordingVar := none,
                           audioCalls := w.audioCalls ++ [.setAudioMode] }).recordingRef) ∧
    ((∀ n w1, (others n w1).intervals = w1.intervals) →
      ((recordAndSendAudio r o).runWith others (w, 0)).2.1.intervals = w.intervals) ∧
    ((recordAndSendAudio r o).run w).1 = .ok () ∧
    ((recordAndSendAudio r o).run w).2.recordingRef = none ∧
    ((recordAndSendAudio r o).run w).2.intervals = w.intervals := by
  refine ⟨recordAndSendAudio_returns r o w others, ?_,
    recordAndSendAudio_rejected_audio_mode r o w others,
    recordAndSendAudio_keeps_intervals r o w others,
    (recordAndSendAudio_run r o w).1, (recordAndSendAudio_run r o w).2.1,
    (recordAndSendAudio_run r o w).2.2⟩
  intro hheld
  rcases h : w.recordingRef with _ | h0
  · rcases hheld with h1 | h1
    · exact absurd h h1
    · exact recordAndSendAudio_releases_constructed r o w others h h1
  · exact recordAndSendAudio_releases_found r o w others h0 h

/-! ## C9: a capture requested while one is in progress -/

/-- C9 as stated fails.  With `enableMic` at time 0 and every step succeeding,
at 39.999 s the call started by the tick at 20 s is in its cooldown wait and
`recordingRef.current` holds its recording.  A further call of
`recordAndSendAudio` in that state calls `startAsync` and `stopAndUnloadAsync`
on that recording, uploads once more, and ends with `recordingRef.current`
set to `null`. -/
theorem recordAndSendAudio_reuses_held_recording :
    (runUntil (allOk "file:///rec.3gp") 39999 4
        { world := dispatch (fun r => enableMic r true) initialWorld, pending := [] }).map
      (fun s => (s.world.recordingRef, s.pending.map (fun p => p.due), s.world.audioCalls,
        s.world.uploads.length)) =
      some (some 1, [40000],
        [.setAudioMode, .setAudioMode, .prepareToRecord 1, .start 1, .stopAndUnload 1], 1) ∧
    (runUntil (allOk "file:///rec.3gp") 39999 4
        { world := dispatch (fun r => enableMic r true) initialWorld, pending := [] }).map
      (fun s =>
        (((recordAndSendAudio initialState (captureOk "file:///rec.3gp")).run s.world).2.recordingRef,
         ((recordAndSendAudio initialState (captureOk "file:///rec.3gp")).run s.world).2.audioCalls,
         ((recordAndSendAudio initialState (captureOk "file:///rec.3gp")).run
            s.world).2.uploads.length)) =
      some (none,
        [.setAudioMode, .setAudioMode, .prepareToRecord 1, .start 1, .stopAndUnload 1,
         .start 1, .stopAndUnload 1], 2) := by
  constructor <;> rfl

/-- C9, amended.  For every state in which `recordingRef.current` holds a
recording `h`, a further call of `recordAndSendAudio` returns without throwing,
constructs no `Audio.Recording` and makes its audio calls on `h` only:
`startAsync` when the closure's `isRecording` is `false`, then (if that
succeeded) `stopAndUnloadAsync`; every upload it issues is for `h`; and when it
completes `recordingRef.current` is `null`. -/
theorem recordAndSendAudio_on_held_recording (r : RState) (o : CaptureOutcome) (w : World)
    (h : Nat) (href : w.recordingRef = some h) :
    ((recordAndSendAudio r o).run w).1 = .ok () ∧
    ((recordAndSendAudio r o).run w).2.recordings = w.recordings ∧
    (∃ calls, ((recordAndSendAudio r o).run w).2.audioCalls = w.audioCalls ++ calls ∧
      (∀ c ∈ calls, c = .start h ∨ c = .stopAndUnload h) ∧
      (r.isRecording = false → .start h ∈ calls) ∧
      (r.isRecording = true ∨ o.startOk = true → .stopAndUnload h ∈ calls)) ∧
    (∃ ups, ((recordAndSendAudio r o).run w).2.uploads = w.uploads ++ ups ∧
      (∀ u ∈ ups, u.recording = h) ∧
      ((r.isRecording = true ∨ o.startOk = true) → o.stopOk = true →
        uriTruthy o.uri = true → ups.length = 1)) ∧
    ((recordAndSendAudio r o).run w).2.recordingRef = none := by
  obtain ⟨r1, r2, r3, r4, r5, rec⟩ := r
  obtain ⟨am, pr, st, sp, uri, up⟩ := o
  refine ⟨?_, ?_, ⟨(if rec = true then [] else [.start h]) ++
      (if rec = true ∨ st = true then [.stopAndUnload h] else []), ?_, ?_, ?_, ?_⟩,
    ⟨(if (rec = true ∨ st = true) ∧ sp = true ∧ uriTruthy uri = true then
        [{ recording := h, uri := uri.getD "" }] else []), ?_, ?_, ?_⟩, ?_⟩
  all_goals
    simp [recordAndSendAudio, setRecordingVar, setRecordingRef, setAudioModeAsync,
      newRecording, onRecording, setIsRecording, postPredict, href]
  all_goals try (split_ifs <;> simp_all)
  · rintro c (hc | hc)
    · exact Or.inl hc.2
    · exact Or.inr hc.2
  · rintro u - - - rfl
    rfl

/-- C9, amended, on a world where recording 1 is held, with every step
succeeding. -/
theorem recordAndSendAudio_on_held_recording_witness :
    heldWorld.recordingRef = some 1 ∧
    (((recordAndSendAudio initialState (captureOk "file:///rec.3gp")).run heldWorld).1 = .ok () ∧
      ((recordAndSendAudio initialState (captureOk "file:///rec.3gp")).run heldWorld).2.recordings =
        heldWorld.recordings ∧
      (∃ calls,
        ((recordAndSendAudio initialState (captureOk "file:///rec.3gp")).run heldWorld).2.audioCalls =
          heldWorld.audioCalls ++ calls ∧
        (∀ c ∈ calls, c = .start 1 ∨ c = .stopAndUnload 1) ∧
        (initialState.isRecording = false → .start 1 ∈ calls) ∧
        (initialState.isRecording = true ∨ (captureOk "file:///rec.3gp").startOk = true →
          .stopAndUnload 1 ∈ calls)) ∧
      (∃ ups,
        ((recordAndSendAudio initialState (captureOk "file:///rec.3gp")).run heldWorld).2.uploads =
          heldWorld.uploads ++ ups ∧
        (∀ u ∈ ups, u.recording = 1) ∧
        ((initialState.isRecording = true ∨ (captureOk "file:///rec.3gp").startOk = true) →
          (captureOk "file:///rec.3gp").stopOk = true →
          uriTruthy (captureOk "file:///rec.3gp").uri = true → ups.length = 1)) ∧
      ((recordAndSendAudio initialState (captureOk "file:///rec.3gp")).run
        heldWorld).2.recordingRef = none) :=
  ⟨rfl, recordAndSendAudio_on_held_recording initialState (captureOk "file:///rec.3gp")
    heldWorld 1 rfl⟩

/-! ## The capture cycle, event by event -/

/-- The first part of a capture that finds no recording in
`recordingRef.current` and whose steps up to `stopAndUnloadAsync` succeed: it
constructs the next recording and runs up to the recording wait holding it,
with nothing uploaded yet. -/
theorem capture_start_fresh (r : RState) (c : CaptureOutcome) (uri : String)
    (hr : r.isRecording = false) (ham : c.audioModeOk = true) (hpr : c.prepareOk = true)
    (hst : c.startOk = true) (hsp : c.stopOk = true) (hu : c.uri = some uri) (hne : uri ≠ "")
    (w : World) (href : w.recordingRef = none) :
    ∃ k w1, (recordAndSendAudio r c).runToWait w = (.waiting 15000 k, w1) ∧
      UploadsThenReleases k uri ∧ w1.recordingVar = some (w.recordings + 1) ∧
      w1.recordingRef = some (w.recordings + 1) ∧ w1.recordings = w.recordings + 1 ∧
      w1.uploads = w.uploads ∧ w1.intervals = w.intervals ∧ w1.now = w.now := by
  simp [recordAndSendAudio, uriTruthy, setRecordingVar, setRecordingRef,
    setAudioModeAsync, newRecording, onRecording, setIsRecording, postPredict, href, hr, ham,
    hpr, hst, hsp, hu, hne]
  refine ⟨_, _, ⟨rfl, rfl⟩, ?_, ?_⟩
  · intro w2 h hv
    simp [onRecording, hv]
    refine ⟨_, _, ⟨rfl, rfl⟩, ?_, ?_⟩
    · intro w3
      simp
      split_ifs <;> simp_all
    · simp
  · simp

/-- The first part of a capture that finds recording `h0` in
`recordingRef.current`, when `startAsync` and `stopAndUnloadAsync` resolve on
it: it constructs no recording and runs up to the recording wait holding `h0`,
with nothing uploaded yet. -/
theorem capture_start_held (r : RState) (c : CaptureOutcome) (uri : String)
    (hr : r.isRecording = false)
    (hst : c.startOk = true) (hsp : c.stopOk = true) (hu : c.uri = some uri) (hne : uri ≠ "")
    (w : World) (h0 : Nat) (href : w.recordingRef = some h0) :
    ∃ k w1, (recordAndSendAudio r c).runToWait w = (.waiting 15000 k, w1) ∧
      UploadsThenReleases k uri ∧ w1.recordingVar = some h0 ∧
      w1.recordingRef = some h0 ∧ w1.recordings = w.recordings ∧
      w1.uploads = w.uploads ∧ w1.intervals = w.intervals ∧ w1.now = w.now := by
  simp [recordAndSendAudio, uriTruthy, setRecordingVar, setRecordingRef,
    setAudioModeAsync, newRecording, onRecording, setIsRecording, postPredict, href, hr,
    hst, hsp, hu, hne]
  refine ⟨_, _, ⟨rfl, rfl⟩, ?_, ?_⟩
  · intro w2 h hv
    simp [onRecording, hv]
    refine ⟨_, _, ⟨rfl, rfl⟩, ?_, ?_⟩
    · intro w3
      simp
      split_ifs <;> simp_all
    · simp
  · simp

/-- A capture that finds recording `h0` in `recordingRef.current` and whose
`startAsync` rejects: it ends at once, with `recordingRef.current` set to
`null` and nothing uploaded. -/
theorem capture_start_rejected (r : RState) (c : CaptureOutcome)
    (hr : r.isRecording = false) (hst : c.startOk = false)
    (w : World) (h0 : Nat) (href : w.recordingRef = some h0) :
    ∃ w1, (recordAndSendAudio r c).runToWait w = (.done (.ok ()), w1) ∧
      w1.recordingRef = none ∧ w1.recordings = w.recordings ∧
      w1.uploads = w.uploads ∧ w1.intervals = w.intervals ∧ w1.now = w.now := by
  simp [recordAndSendAudio, uriTruthy, setRecordingVar, setRecordingRef,
    setAudioModeAsync, newRecording, onRecording, setIsRecording, postPredict, href, hr,
    hst]

/-- Whatever a capture is answered, its first part ends or reaches the
recording wait with nothing uploaded and no timer changed. -/
theorem capture_start_any (r : RState) (c : CaptureOutcome) (hr : r.isRecording = false)
    (w : World) :
    ∃ w1, ((recordAndSendAudio r c).runToWait w = (.done (.ok ()), w1) ∨
        ∃ k, (recordAndSendAudio r c).runToWait w = (.waiting 15000 k, w1)) ∧
      w1.uploads = w.uploads ∧ w1.intervals = w.intervals ∧ w1.now = w.now := by
  rcases href : w.recordingRef with _ | h0 <;>
    simp [recordAndSendAudio, uriTruthy, setRecordingVar, setRecordingRef,
      setAudioModeAsync, newRecording, onRecording, setIsRecording, postPredict, href, hr] <;>
    split_ifs <;> simp

/-- One event of the timed execution. -/
theorem runUntil_step (o : Oracle) (T fuel : Nat) (s s1 : Sched)
    (h : nextEvent o T s = some s1) : runUntil o T (fuel + 1) s = runUntil o T fuel s1 := by
  simp [runUntil, h]

/-- The timed execution stops when no event is due by the horizon. -/
theorem runUntil_stop (o : Oracle) (T fuel : Nat) (s : Sched) (h : nextEvent o T s = none) :
    runUntil o T fuel s = some { s with world := { s.world with now := T } } := by
  cases fuel <;> simp [runUntil, h]

/-- A tick of the only live interval, scheduled on `recordAndSendAudio` by a
render with `isRecording = false`, when `recordingRef.current` is `null` and
every step succeeds: the interval is armed again one period later and the call
is suspended for 15 s holding the recording it constructed, with nothing
uploaded yet. -/
theorem fireInterval_fresh (o : Oracle) (s : Sched) (id due armedAt : Nat) (env : RState)
    (uri : String) (hints : s.world.intervals = [captureInterval id due armedAt env])
    (henv : env.isRecording = false) (ho : o.capture due = captureOk uri) (huri : uri ≠ "")
    (href : s.world.recordingRef = none) :
    ∃ s1 p, fireInterval o 0 (captureInterval id due armedAt env) s = s1 ∧
      s1.pending = s.pending ++ [p] ∧ p.due = due + 15000 ∧ p.armedAt = due ∧
      p.recordingVar = some (s.world.recordings + 1) ∧ UploadsThenReleases p.rest uri ∧
      s1.world.intervals = [captureInterval id (due + 20000) due env] ∧
      s1.world.uploads = s.world.uploads ∧
      s1.world.recordingRef = some (s.world.recordings + 1) ∧
      s1.world.recordings = s.world.recordings + 1 := by
  obtain ⟨k, w1, hrun, hk, hv, hrf, hrc, hup, hint, hnow⟩ :=
    capture_start_fresh env (captureOk uri) uri henv rfl rfl rfl rfl rfl huri
      { s.world with now := due, intervals := rearmAt 0 due s.world.intervals } href
  have hf : fireInterval o 0 (captureInterval id due armedAt env) s =
      { world := w1,
        pending := s.pending ++
          [{ due := w1.now + 15000, armedAt := w1.now, recordingVar := w1.recordingVar,
             rest := k }] } := by
    simp only [fireInterval, launch, Callback.task, captureInterval, ho]
    rw [hrun]
  refine ⟨_, { due := w1.now + 15000, armedAt := w1.now, recordingVar := w1.recordingVar,
               rest := k }, hf, rfl, ?_, hnow, hv, hk, ?_, hup, hrf, hrc⟩
  · simp only [hnow]
  · simp only [hint, hints, rearmAt, captureInterval]

/-- A tick of the only live interval when `recordingRef.current` holds
recording `h0` and `startAsync` and `stopAndUnloadAsync` resolve on it: the
call constructs no recording and is suspended for 15 s holding `h0`. -/
theorem fireInterval_held (o : Oracle) (s : Sched) (id due armedAt : Nat) (env : RState)
    (uri : String) (h0 : Nat) (hints : s.world.intervals = [captureInterval id due armedAt env])
    (henv : env.isRecording = false) (hst : (o.capture due).startOk = true)
    (hsp : (o.capture due).stopOk = true) (hu : (o.capture due).uri = some uri)
    (huri : uri ≠ "") (href : s.world.recordingRef = some h0) :
    ∃ s1 p, fireInterval o 0 (captureInterval id due armedAt env) s = s1 ∧
      s1.pending = s.pending ++ [p] ∧ p.due = due + 15000 ∧ p.armedAt = due ∧
      p.recordingVar = some h0 ∧ UploadsThenReleases p.rest uri ∧
      s1.world.intervals = [captureInterval id (due + 20000) due env] ∧
      s1.world.uploads = s.world.uploads ∧
      s1.world.recordingRef = some h0 ∧
      s1.world.recordings = s.world.recordings := by
  obtain ⟨k, w1, hrun, hk, hv, hrf, hrc, hup, hint, hnow⟩ :=
    capture_start_held env (o.capture due) uri henv hst hsp hu huri
      { s.world with now := due, intervals := rearmAt 0 due s.world.intervals } h0 href
  have hf : fireInterval o 0 (captureInterval id due armedAt env) s =
      { world := w1,
        pending := s.pending ++
          [{ due := w1.now + 15000, armedAt := w1.now, recordingVar := w1.recordingVar,
             rest := k }] } := by
    simp only [fireInterval, launch, Callback.task, captureInterval]
    rw [hrun]
  refine ⟨_, { due := w1.now + 15000, armedAt := w1.now, recordingVar := w1.recordingVar,
               rest := k }, hf, rfl, ?_, hnow, hv, hk, ?_, hup, hrf, hrc⟩
  · simp only [hnow]
  · simp only [hint, hints, rearmAt, captureInterval]

/-- A tick of the only live interval when `recordingRef.current` holds a
recording and `startAsync` rejects on it: the call ends at once and
`recordingRef.current` is `null`. -/
theorem fireInterval_rejected (o : Oracle) (s : Sched) (id due armedAt : Nat) (env : RState)
    (h0 : Nat) (hints : s.world.intervals = [captureInterval id due armedAt env])
    (henv : env.isRecording = false) (hst : (o.capture due).startOk = false)
    (href : s.world.recordingRef = some h0) :
    ∃ s1, fireInterval o 0 (captureInterval id due armedAt env) s = s1 ∧
      s1.pending = s.pending ∧
      s1.world.intervals = [captureInterval id (due + 20000) due env] ∧
      s1.world.uploads = s.world.uploads ∧
      s1.world.recordingRef = none ∧
      s1.world.recordings = s.world.recordings := by
  obtain ⟨w1, hrun, hrf, hrc, hup, hint, -⟩ :=
    capture_start_rejected env (o.capture due) henv hst
      { s.world with now := due, intervals := rearmAt 0 due s.world.intervals } h0 href
  have hf : fireInterval o 0 (captureInterval id due armedAt env) s =
      { world := w1, pending := s.pending } := by
    simp only [fireInterval, launch, Callback.task, captureInterval]
    rw [hrun]
  refine ⟨_, hf, rfl, ?_, hup, hrf, hrc⟩
  simp only [hint, hints, rearmAt, captureInterval]

/-- A tick of the only live interval, whatever the call is answered: the
interval is armed again, nothing is uploaded, and the call has ended or is
suspended for 15 s. -/
theorem fireInterval_any (o : Oracle) (s : Sched) (id due armedAt : Nat) (env : RState)
    (hints : s.world.intervals = [captureInterval id due armedAt env])
    (henv : env.isRecording = false) :
    ∃ s1, fireInterval o 0 (captureInterval id due armedAt env) s = s1 ∧
      (s1.pending = s.pending ∨
        ∃ p, s1.pending = s.pending ++ [p] ∧ p.due = due + 15000 ∧ p.armedAt = due) ∧
      s1.world.intervals = [captureInterval id (due + 20000) due env] ∧
      s1.world.uploads = s.world.uploads := by
  obtain ⟨w1, hrun, hup, hint, hnow⟩ :=
    capture_start_any env (o.capture due) henv
      { s.world with now := due, intervals := rearmAt 0 due s.world.intervals }
  have hi : w1.intervals = [captureInterval id (due + 20000) due env] := by
    simp only [hint, hints, rearmAt, captureInterval]
  rcases hrun with hrun | ⟨k, hrun⟩
  · have hf : fireInterval o 0 (captureInterval id due armedAt env) s =
        { world := w1, pending := s.pending } := by
      simp only [fireInterval, launch, Callback.task, captureInterval]
      rw [hrun]
    exact ⟨_, hf, Or.inl rfl, hi, hup⟩
  · have hf : fireInterval o 0 (captureInterval id due armedAt env) s =
        { world := w1,
          pending := s.pending ++
            [{ due := w1.now + 15000, armedAt := w1.now, recordingVar := w1.recordingVar,
               rest := k }] } := by
      simp only [fireInterval, launch, Callback.task, captureInterval]
      rw [hrun]
    refine ⟨_, hf, Or.inr ⟨_, rfl, ?_, hnow⟩, hi, hup⟩
    simp only [hnow]

/-- A call suspended in its recording wait resumes: it uploads once and is
suspended again for 5 s; timers and handle are untouched. -/
theorem resume_uploads (s : Sched) (k : Nat) (p : Pending) (uri : String) (h : Nat)
    (hp : UploadsThenReleases p.rest uri) (hv : p.recordingVar = some h) :
    ∃ s1 q, resume k p s = s1 ∧ s1.pending = s.pending.eraseIdx k ++ [q] ∧
      q.due = p.due + 5000 ∧ q.armedAt = p.due ∧ q.recordingVar = some h ∧ Releases q.rest ∧
      s1.world.intervals = s.world.intervals ∧
      s1.world.uploads = s.world.uploads ++ [{ recording := h, uri := uri }] ∧
      s1.world.recordingRef = s.world.recordingRef ∧
      s1.world.recordings = s.world.recordings := by
  obtain ⟨k1, w1, hrun, hk1, hup, href, hvar, hint, hnow, hrc⟩ :=
    hp { s.world with now := p.due, recordingVar := p.recordingVar } h hv
  have hf : resume k p s =
      { world := w1,
        pending := s.pending.eraseIdx k ++
          [{ due := w1.now + 5000, armedAt := w1.now, recordingVar := w1.recordingVar,
             rest := k1 }] } := by
    simp only [resume, launch]
    rw [hrun]
  refine ⟨_, { due := w1.now + 5000, armedAt := w1.now, recordingVar := w1.recordingVar,
               rest := k1 }, hf, rfl, ?_, hnow, hvar, hk1, hint, ?_, href, hrc⟩
  · simp only [hnow]
  · simp only [hup]

/-- A call suspended in its cooldown wait resumes: it completes and releases
the handle; nothing is uploaded and no timer changes. -/
theorem resume_releases (s : Sched) (k : Nat) (p : Pending) (h : Nat)
    (hp : Releases p.rest) (hv : p.recordingVar = some h) :
    ∃ s1, resume k p s = s1 ∧ s1.pending = s.pending.eraseIdx k ∧
      s1.world.intervals = s.world.intervals ∧
      s1.world.uploads = s.world.uploads ∧
      s1.world.recordingRef = none ∧
      s1.world.recordings = s.world.recordings := by
  obtain ⟨w1, hrun, href, hup, hint, hnow, hrc⟩ :=
    hp { s.world with now := p.due, recordingVar := p.recordingVar }
  have hf : resume k p s = { world := w1, pending := s.pending.eraseIdx k } := by
    simp only [resume, launch]
    rw [hrun]
  exact ⟨_, hf, rfl, hint, hup, href (by simp [hv]), hrc⟩

/-- What a successful `enableMic` leaves when no timer was live and
`isRecording` was `false`: one interval on `recordAndSendAudio`, due one
period later; uploads, handle and recordings are unchanged. -/
theorem enableMic_idle (w : World) (hidle : w.intervals = [])
    (hrec : w.react.isRecording = false) :
    (dispatch (fun r => enableMic r true) w).intervals =
      [captureInterval (w.lastTimerId + 1) (w.now + 20000) w.now w.react] ∧
    (dispatch (fun r => enableMic r true) w).uploads = w.uploads ∧
    (dispatch (fun r => enableMic r true) w).recordingRef = w.recordingRef ∧
    (dispatch (fun r => enableMic r true) w).recordings = w.recordings := by
  simp [dispatch, enableMic, setAudioModeAsync, setIsMicEnabled, setIsRecording, alert,
    startRecordingLoop, setInterval, hrec, hidle, captureInterval]

/-- The first call of the capture cycle: nothing is uploaded before 35 s, and
at 35 s the call started by the tick at 20 s has uploaded the recording it
constructed and waits out its cooldown. -/
theorem cycle_first_call (w : World) (o : Oracle) (uri : String)
    (hidle : w.intervals = []) (hrec : w.react.isRecording = false)
    (href : w.recordingRef = none) (hnow : w.now = 0)
    (h20 : o.capture 20000 = captureOk uri) (huri : uri ≠ "") :
    (∀ T, T < 35000 →
      uploadsBy o T 8 (dispatch (fun r => enableMic r true) w) = some w.uploads) ∧
    ∃ s2, FirstCooldown s2 (w.lastTimerId + 1) w.react (w.recordings + 1)
        (w.uploads ++ [{ recording := w.recordings + 1, uri := uri }]) ∧
      ∀ T, 35000 ≤ T →
        runUntil o T 8 { world := dispatch (fun r => enableMic r true) w, pending := [] } =
          runUntil o T 6 s2 := by
  obtain ⟨hi0, hu0, hr0, hc0⟩ := enableMic_idle w hidle hrec
  rw [hnow, Nat.zero_add] at hi0
  rw [href] at hr0
  generalize dispatch (fun r => enableMic r true) w = w0 at hi0 hu0 hr0 hc0 ⊢
  -- the tick at 20 s
  obtain ⟨s1, p1, hf1, hp1, hd1, ha1, hv1, hk1, hi1, hu1, hr1, hc1⟩ :=
    fireInterval_fresh o { world := w0, pending := [] } _ _ _ _ uri hi0 hrec h20 huri hr0
  have n0 : ∀ T, nextEvent o T { world := w0, pending := [] } =
      if 20000 ≤ T then some s1 else none := by
    intro T
    rw [← hf1]
    simp [nextEvent, nextInterval, nextPending, hi0, captureInterval]
  simp only [List.nil_append, Nat.reduceAdd] at hp1 hd1 hi1
  simp only [hu0, hc0] at hu1 hr1 hc1 hv1
  -- the first call resumes at 35 s and uploads
  obtain ⟨s2, q, hf2, hp2, hd2, ha2, hv2, hk2, hi2, hu2, hr2, hc2⟩ :=
    resume_uploads s1 0 p1 uri _ hk1 hv1
  have n1 : ∀ T, nextEvent o T s1 = if 35000 ≤ T then some s2 else none := by
    intro T
    rw [← hf2]
    simp [nextEvent, nextInterval, nextPending, fireBefore, hi1, hp1, hd1, ha1, captureInterval]
  simp only [hp1, hi1, hu1, hr1, hc1, hd1, Nat.reduceAdd, List.eraseIdx_cons_zero,
    List.nil_append] at hp2 hd2 ha2 hi2 hu2 hr2 hc2
  refine ⟨?_, s2, ⟨q, hp2, hd2, ha2, hv2, hk2, hi2, hu2, hr2, hc2⟩, ?_⟩
  · intro T hT
    simp only [uploadsBy]
    by_cases h : 20000 ≤ T
    · rw [runUntil_step o T 7 _ s1 (by rw [n0, if_pos h]),
        runUntil_stop o T 7 s1 (by rw [n1, if_neg (by omega)])]
      simp [hu1]
    · rw [runUntil_stop o T 8 _ (by rw [n0, if_neg h])]
      simp [hu0]
  · intro T hT
    rw [runUntil_step o T 7 _ s1 (by rw [n0, if_pos (by omega)]),
      runUntil_step o T 6 _ s2 (by rw [n1, if_pos hT])]

/-- Whatever the call started by the tick at 40 s gets answered, nothing is
uploaded from 40 s to 54.999 s. -/
theorem cycle_second_call_starts (o : Oracle) (s2 : Sched) (id : Nat) (env : RState) (h : Nat)
    (ups : List Upload) (henv : env.isRecording = false) (hc : FirstCooldown s2 id env h ups)
    (T : Nat) (h1 : 40000 ≤ T) (h2 : T < 55000) :
    (runUntil o T 6 s2).map (fun s => s.world.uploads) = some ups := by
  obtain ⟨q, hp2, hd2, ha2, hv2, hk2, hi2, hu2, -, -⟩ := hc
  -- the tick at 40 s comes before the first call ends its cooldown
  obtain ⟨s3, hf3, hp3, hi3, hu3⟩ := fireInterval_any o s2 _ _ _ _ hi2 henv
  have n2 : nextEvent o T s2 = some s3 := by
    rw [← hf3]
    simp [nextEvent, nextInterval, nextPending, fireBefore, hi2, hp2, hd2, ha2, captureInterval,
      h1]
  simp only [Nat.reduceAdd] at hi3 hp3
  rw [hu2] at hu3
  -- the first call ends its cooldown at 40 s
  obtain ⟨s4, hf4, hp4, hi4, hu4, -, -⟩ := resume_releases s3 0 q h hk2 hv2
  rw [hi3] at hi4
  rw [hu3] at hu4
  rcases hp3 with hp3 | ⟨p3, hp3, hd3, ha3⟩
  · rw [hp2] at hp3
    have n3 : nextEvent o T s3 = some s4 := by
      rw [← hf4]
      simp [nextEvent, nextInterval, nextPending, fireBefore, hi3, hp3, hd2, ha2,
        captureInterval, h1]
    rw [hp3] at hp4
    simp only [List.eraseIdx_cons_zero] at hp4
    have n4 : nextEvent o T s4 = none := by
      simp [nextEvent, nextInterval, nextPending, fireBefore, hi4, hp4, captureInterval]
      omega
    rw [runUntil_step o T 5 s2 s3 n2, runUntil_step o T 4 s3 s4 n3, runUntil_stop o T 4 s4 n4]
    simp [hu4]
  · rw [hp2] at hp3
    simp only [List.singleton_append] at hp3
    have n3 : nextEvent o T s3 = some s4 := by
      rw [← hf4]
      simp [nextEvent, nextInterval, nextPending, fireBefore, hi3, hp3, hd2, ha2, hd3, ha3,
        captureInterval, h1]
    rw [hp3] at hp4
    simp only [List.eraseIdx_cons_zero] at hp4
    have n4 : nextEvent o T s4 = none := by
      simp [nextEvent, nextInterval, nextPending, fireBefore, hi4, hp4, hd3, ha3,
        captureInterval]
      omega
    rw [runUntil_step o T 5 s2 s3 n2, runUntil_step o T 4 s3 s4 n3, runUntil_stop o T 4 s4 n4]
    simp [hu4]

/-- When `startAsync` and `stopAndUnloadAsync` resolve for the call started by
the tick at 40 s, which runs on the recording the first call stopped at 35 s,
that recording is uploaded a second time at 55 s. -/
theorem cycle_reuse (o : Oracle) (s2 : Sched) (id : Nat) (env : RState) (h : Nat)
    (ups : List Upload) (henv : env.isRecording = false) (hc : FirstCooldown s2 id env h ups)
    (hst : (o.capture 40000).startOk = true) (hsp : (o.capture 40000).stopOk = true)
    (uri2 : String) (hu : (o.capture 40000).uri = some uri2) (hne : uri2 ≠ "") :
    (runUntil o 60000 6 s2).map (fun s => s.world.uploads) =
      some (ups ++ [{ recording := h, uri := uri2 }]) := by
  obtain ⟨q, hp2, hd2, ha2, hv2, hk2, hi2, hu2, hr2, -⟩ := hc
  -- the tick at 40 s finds the recording of the first call
  obtain ⟨s3, p3, hf3, hp3, hd3, ha3, hv3, hk3, hi3, hu3, -, -⟩ :=
    fireInterval_held o s2 _ _ _ _ uri2 h hi2 henv hst hsp hu hne hr2
  have n2 : nextEvent o 60000 s2 = some s3 := by
    rw [← hf3]
    simp [nextEvent, nextInterval, nextPending, fireBefore, hi2, hp2, hd2, ha2, captureInterval]
  rw [hp2] at hp3
  rw [hu2] at hu3
  simp only [Nat.reduceAdd, List.singleton_append] at hd3 hi3 hp3
  -- the first call ends its cooldown at 40 s
  obtain ⟨s4, hf4, hp4, hi4, hu4, -, -⟩ := resume_releases s3 0 q h hk2 hv2
  have n3 : nextEvent o 60000 s3 = some s4 := by
    rw [← hf4]
    simp [nextEvent, nextInterval, nextPending, fireBefore, hi3, hp3, hd2, ha2, hd3, ha3,
      captureInterval]
  rw [hp3] at hp4
  rw [hi3] at hi4
  rw [hu3] at hu4
  simp only [List.eraseIdx_cons_zero] at hp4
  -- the second call resumes at 55 s and uploads
  obtain ⟨s5, q5, hf5, hp5, hd5, ha5, hv5, hk5, hi5, hu5, -, -⟩ :=
    resume_uploads s4 0 p3 uri2 h hk3 hv3
  have n4 : nextEvent o 60000 s4 = some s5 := by
    rw [← hf5]
    simp [nextEvent, nextInterval, nextPending, fireBefore, hi4, hp4, hd3, ha3, captureInterval]
  rw [hp4] at hp5
  rw [hi4] at hi5
  rw [hu4] at hu5
  rw [hd3] at hd5 ha5
  simp only [Nat.reduceAdd, List.eraseIdx_cons_zero, List.nil_append] at hd5 hp5
  -- the tick at 60 s
  obtain ⟨s6, hf6, hp6, hi6, hu6⟩ := fireInterval_any o s5 _ _ _ _ hi5 henv
  have n5 : nextEvent o 60000 s5 = some s6 := by
    rw [← hf6]
    simp [nextEvent, nextInterval, nextPending, fireBefore, hi5, hp5, hd5, ha5, captureInterval]
  simp only [Nat.reduceAdd] at hi6 hp6
  rw [hu5] at hu6
  -- the second call ends its cooldown at 60 s
  obtain ⟨s7, hf7, hp7, hi7, hu7, -, -⟩ := resume_releases s6 0 q5 h hk5 hv5
  rw [hi6] at hi7
  rw [hu6] at hu7
  rcases hp6 with hp6 | ⟨p6, hp6, hd6, ha6⟩
  · rw [hp5] at hp6
    have n6 : nextEvent o 60000 s6 = some s7 := by
      rw [← hf7]
      simp [nextEvent, nextInterval, nextPending, fireBefore, hi6, hp6, hd5, ha5,
        captureInterval]
    rw [hp6] at hp7
    simp only [List.eraseIdx_cons_zero] at hp7
    have n7 : nextEvent o 60000 s7 = none := by
      simp [nextEvent, nextInterval, nextPending, fireBefore, hi7, hp7, captureInterval]
    rw [runUntil_step o 60000 5 s2 s3 n2, runUntil_step o 60000 4 s3 s4 n3,
      runUntil_step o 60000 3 s4 s5 n4, runUntil_step o 60000 2 s5 s6 n5,
      runUntil_step o 60000 1 s6 s7 n6, runUntil_stop o 60000 1 s7 n7]
    simp [hu7]
  · rw [hp5] at hp6
    simp only [List.singleton_append] at hp6
    have n6 : nextEvent o 60000 s6 = some s7 := by
      rw [← hf7]
      simp [nextEvent, nextInterval, nextPending, fireBefore, hi6, hp6, hd5, ha5, hd6, ha6,
        captureInterval]
    rw [hp6] at hp7
    simp only [List.eraseIdx_cons_zero] at hp7
    have n7 : nextEvent o 60000 s7 = none := by
      simp [nextEvent, nextInterval, nextPending, fireBefore, hi7, hp7, hd6, ha6,
        captureInterval]
    rw [runUntil_step o 60000 5 s2 s3 n2, runUntil_step o 60000 4 s3 s4 n3,
      runUntil_step o 60000 3 s4 s5 n4, runUntil_step o 60000 2 s5 s6 n5,
      runUntil_step o 60000 1 s6 s7 n6, runUntil_stop o 60000 1 s7 n7]
    simp [hu7]

/-- When `startAsync` rejects for the call started by the tick at 40 s, which
runs on the recording the first call stopped at 35 s, nothing more is uploaded
by 60 s; the call started by the tick at 60 s constructs the next recording
and, its steps succeeding, uploads it at 75 s. -/
theorem cycle_restart_rejected (o : Oracle) (s2 : Sched) (id : Nat) (env : RState) (h : Nat)
    (ups : List Upload) (henv : env.isRecording = false) (hc : FirstCooldown s2 id env h ups)
    (hst : (o.capture 40000).startOk = false) :
    (runUntil o 60000 6 s2).map (fun s => s.world.uploads) = some ups ∧
    ∀ uri3, o.capture 60000 = captureOk uri3 → uri3 ≠ "" →
      (runUntil o 74999 6 s2).map (fun s => s.world.uploads) = some ups ∧
      (runUntil o 75000 6 s2).map (fun s => s.world.uploads) =
        some (ups ++ [{ recording := h + 1, uri := uri3 }]) := by
  obtain ⟨q, hp2, hd2, ha2, hv2, hk2, hi2, hu2, hr2, hc2⟩ := hc
  -- the tick at 40 s: `startAsync` rejects and the call ends
  obtain ⟨s3, hf3, hp3, hi3, hu3, -, hc3⟩ :=
    fireInterval_rejected o s2 _ _ _ _ h hi2 henv hst hr2
  have n2 : ∀ T, 40000 ≤ T → nextEvent o T s2 = some s3 := by
    intro T hT
    rw [← hf3]
    simp [nextEvent, nextInterval, nextPending, fireBefore, hi2, hp2, hd2, ha2, captureInterval,
      hT]
  rw [hp2] at hp3
  rw [hu2] at hu3
  rw [hc2] at hc3
  simp only [Nat.reduceAdd] at hi3
  -- the first call ends its cooldown at 40 s
  obtain ⟨s4, hf4, hp4, hi4, hu4, hr4, hc4⟩ := resume_releases s3 0 q h hk2 hv2
  have n3 : ∀ T, 40000 ≤ T → nextEvent o T s3 = some s4 := by
    intro T hT
    rw [← hf4]
    simp [nextEvent, nextInterval, nextPending, fireBefore, hi3, hp3, hd2, ha2, captureInterval,
      hT]
  rw [hp3] at hp4
  rw [hi3] at hi4
  rw [hu3] at hu4
  rw [hc3] at hc4
  simp only [List.eraseIdx_cons_zero] at hp4
  constructor
  · -- the tick at 60 s, whatever it is answered
    obtain ⟨s5, hf5, hp5, hi5, hu5⟩ := fireInterval_any o s4 _ _ _ _ hi4 henv
    have n4 : nextEvent o 60000 s4 = some s5 := by
      rw [← hf5]
      simp [nextEvent, nextInterval, nextPending, fireBefore, hi4, hp4, captureInterval]
    simp only [Nat.reduceAdd] at hi5 hp5
    rw [hu4] at hu5
    have n5 : nextEvent o 60000 s5 = none := by
      rcases hp5 with hp5 | ⟨p5, hp5, hd5, ha5⟩
      · rw [hp4] at hp5
        simp [nextEvent, nextInterval, nextPending, fireBefore, hi5, hp5, captureInterval]
      · rw [hp4] at hp5
        simp [nextEvent, nextInterval, nextPending, fireBefore, hi5, hp5, hd5, ha5,
          captureInterval]
    rw [runUntil_step o 60000 5 s2 s3 (n2 _ (by omega)),
      runUntil_step o 60000 4 s3 s4 (n3 _ (by omega)),
      runUntil_step o 60000 3 s4 s5 n4, runUntil_stop o 60000 3 s5 n5]
    simp [hu5]
  · intro uri3 h60 hne3
    -- the tick at 60 s constructs the next recording
    obtain ⟨s5, p5, hf5, hp5, hd5, ha5, hv5, hk5, hi5, hu5, -, -⟩ :=
      fireInterval_fresh o s4 _ _ _ _ uri3 hi4 henv h60 hne3 hr4
    have n4 : ∀ T, 60000 ≤ T → nextEvent o T s4 = some s5 := by
      intro T hT
      rw [← hf5]
      simp [nextEvent, nextInterval, nextPending, fireBefore, hi4, hp4, captureInterval, hT]
    rw [hp4] at hp5
    rw [hu4] at hu5
    rw [hc4] at hv5
    simp only [Nat.reduceAdd, List.nil_append] at hd5 hi5 hp5
    -- that call resumes at 75 s and uploads
    obtain ⟨s6, q6, hf6, hp6, hd6, ha6, -, -, hi6, hu6, -, -⟩ :=
      resume_uploads s5 0 p5 uri3 _ hk5 hv5
    have n5 : ∀ T, nextEvent o T s5 = if 75000 ≤ T then some s6 else none := by
      intro T
      rw [← hf6]
      simp [nextEvent, nextInterval, nextPending, fireBefore, hi5, hp5, hd5, ha5, captureInterval]
    rw [hp5] at hp6
    rw [hi5] at hi6
    rw [hu5] at hu6
    rw [hd5] at hd6 ha6
    simp only [Nat.reduceAdd, List.eraseIdx_cons_zero, List.nil_append] at hd6 hp6
    have n6 : nextEvent o 75000 s6 = none := by
      simp [nextEvent, nextInterval, nextPending, fireBefore, hi6, hp6, hd6, ha6, captureInterval]
    constructor
    · rw [runUntil_step o 74999 5 s2 s3 (n2 _ (by omega)),
        runUntil_step o 74999 4 s3 s4 (n3 _ (by omega)),
        runUntil_step o 74999 3 s4 s5 (n4 _ (by omega)),
        runUntil_stop o 74999 3 s5 (by rw [n5]; rfl)]
      simp [hu5]
    · rw [runUntil_step o 75000 5 s2 s3 (n2 _ (by omega)),
        runUntil_step o 75000 4 s3 s4 (n3 _ (by omega)),
        runUntil_step o 75000 3 s4 s5 (n4 _ (by omega)),
        runUntil_step o 75000 2 s5 s6 (by rw [n5]; rfl),
        runUntil_stop o 75000 2 s6 n6]
      simp [hu6]

/-- Nothing happens while the first call waits out its cooldown. -/
theorem cycle_cooldown (o : Oracle) (s2 : Sched) (id : Nat) (env : RState) (h : Nat)
    (ups : List Upload) (hc : FirstCooldown s2 id env h ups) (T : Nat) (hT : T < 40000) :
    (runUntil o T 6 s2).map (fun s => s.world.uploads) = some ups := by
  obtain ⟨q, hp2, hd2, ha2, -, -, hi2, hu2, -, -⟩ := hc
  have n2 : nextEvent o T s2 = none := by
    simp [nextEvent, nextInterval, nextPending, fireBefore, hi2, hp2, hd2, ha2, captureInterval]
    omega
  rw [runUntil_stop o T 6 s2 n2]
  simp [hu2]

/-! ## C10: two capture periods -/

/-- C10 as stated fails.  On the mounted component, with `enableMic` at time 0
and every step succeeding with a non-empty URI, one upload has been issued by
40 s, not two: the interval first fires at 20 s and the first upload is at
35 s.  The second upload, at 55 s, is not of a distinct recording: the call
started by the tick at 40 s finds `recordingRef.current` still set, so by 60 s
one `Audio.Recording` has been constructed, `startAsync` and
`stopAndUnloadAsync` have each been called twice on it, and both uploads are
of recording 1. -/
theorem one_upload_by_forty_seconds :
    uploadsBy (allOk "file:///rec.3gp") 34999 8
      (dispatch (fun r => enableMic r true) initialWorld) = some [] ∧
    uploadsBy (allOk "file:///rec.3gp") 40000 8
      (dispatch (fun r => enableMic r true) initialWorld) =
      some [{ recording := 1, uri := "file:///rec.3gp" }] ∧
    (uploadsBy (allOk "file:///rec.3gp") 40000 8
      (dispatch (fun r => enableMic r true) initialWorld)).map List.length ≠ some 2 ∧
    uploadsBy (allOk "file:///rec.3gp") 60000 8
      (dispatch (fun r => enableMic r true) initialWorld) =
      some [{ recording := 1, uri := "file:///rec.3gp" },
            { recording := 1, uri := "file:///rec.3gp" }] ∧
    (runUntil (allOk "file:///rec.3gp") 59999 8
        { world := dispatch (fun r => enableMic r true) initialWorld, pending := [] }).map
      (fun s => (s.world.recordings, s.world.audioCalls)) =
      some (1, [.setAudioMode, .setAudioMode, .prepareToRecord 1, .start 1, .stopAndUnload 1,
        .start 1, .stopAndUnload 1]) := by
  refine ⟨rfl, rfl, ?_, rfl, rfl⟩
  decide

/-- C10, amended.  From every state with no live timer, no recording held and
`isRecording = false`, if `enableMic` succeeds at time 0 and every step of the
call started by the tick at 20 s succeeds with a non-empty URI: no upload has
been issued before 35 s, and from 35 s to 54.999 s exactly one has, of the
recording that call constructed.  The call started by the tick at 40 s
constructs no recording: it runs on the one stopped at 35 s.  If `startAsync`
and `stopAndUnloadAsync` resolve on it and `getURI`, asked of it again, answers
a non-empty URI, exactly two uploads have been issued by 60 s, both of that
same recording.  If
`startAsync` rejects on it, exactly one upload has been issued by 60 s, and
when the steps of the call started by the tick at 60 s succeed, still one at
74.999 s and two at 75 s, the second of the next recording. -/
theorem capture_cycle_upload_times (w : World) (o : Oracle) (uri : String)
    (hidle : w.intervals = []) (hrec : w.react.isRecording = false)
    (href : w.recordingRef = none) (hnow : w.now = 0)
    (h20 : o.capture 20000 = captureOk uri) (huri : uri ≠ "") :
    (∀ T, T < 35000 →
      uploadsBy o T 8 (dispatch (fun r => enableMic r true) w) = some w.uploads) ∧
    (∀ T, 35000 ≤ T → T < 55000 →
      uploadsBy o T 8 (dispatch (fun r => enableMic r true) w) =
        some (w.uploads ++ [{ recording := w.recordings + 1, uri := uri }])) ∧
    ((o.capture 40000).startOk = true → (o.capture 40000).stopOk = true →
      ∀ uri2, (o.capture 40000).uri = some uri2 → uri2 ≠ "" →
        uploadsBy o 60000 8 (dispatch (fun r => enableMic r true) w) =
          some (w.uploads ++ [{ recording := w.recordings + 1, uri := uri },
                              { recording := w.recordings + 1, uri := uri2 }])) ∧
    ((o.capture 40000).startOk = false →
      uploadsBy o 60000 8 (dispatch (fun r => enableMic r true) w) =
        some (w.uploads ++ [{ recording := w.recordings + 1, uri := uri }]) ∧
      ∀ uri3, o.capture 60000 = captureOk uri3 → uri3 ≠ "" →
        uploadsBy o 74999 8 (dispatch (fun r => enableMic r true) w) =
          some (w.uploads ++ [{ recording := w.recordings + 1, uri := uri }]) ∧
        uploadsBy o 75000 8 (dispatch (fun r => enableMic r true) w) =
          some (w.uploads ++ [{ recording := w.recordings + 1, uri := uri },
                              { recording := w.recordings + 2, uri := uri3 }])) := by
  obtain ⟨h35, s2, hc, hrun⟩ := cycle_first_call w o uri hidle hrec href hnow h20 huri
  refine ⟨h35, ?_, ?_, ?_⟩
  · intro T h1 h2
    simp only [uploadsBy]
    rw [hrun T h1]
    by_cases h : T < 40000
    · exact cycle_cooldown o s2 _ _ _ _ hc T h
    · exact cycle_second_call_starts o s2 _ _ _ _ hrec hc T (by omega) h2
  · intro hst hsp uri2 hu hne
    simp only [uploadsBy]
    rw [hrun 60000 (by omega), cycle_reuse o s2 _ _ _ _ hrec hc hst hsp uri2 hu hne]
    simp
  · intro hst
    obtain ⟨h60, h75⟩ := cycle_restart_rejected o s2 _ _ _ _ hrec hc hst
    refine ⟨?_, ?_⟩
    · simp only [uploadsBy]
      rw [hrun 60000 (by omega), h60]
    · intro uri3 ho hne
      obtain ⟨ha, hb⟩ := h75 uri3 ho hne
      refine ⟨?_, ?_⟩
      · simp only [uploadsBy]
        rw [hrun 74999 (by omega), ha]
      · simp only [uploadsBy]
        rw [hrun 75000 (by omega), hb]
        simp

/-- C10, amended, on the mounted component: when `startAsync` rejects for the
call started by the tick at 40 s, and when every step succeeds. -/
theorem capture_cycle_upload_times_witness :
    initialWorld.intervals = [] ∧ initialWorld.react.isRecording = false ∧
    initialWorld.recordingRef = none ∧ initialWorld.now = 0 ∧
    (restartRejected "file:///rec.3gp").capture 20000 = captureOk "file:///rec.3gp" ∧
    "file:///rec.3gp" ≠ "" ∧
    ((restartRejected "file:///rec.3gp").capture 40000).startOk = false ∧
    (restartRejected "file:///rec.3gp").capture 60000 = captureOk "file:///rec.3gp" ∧
    uploadsBy (restartRejected "file:///rec.3gp") 40000 8
      (dispatch (fun r => enableMic r true) initialWorld) =
      some [{ recording := 1, uri := "file:///rec.3gp" }] ∧
    uploadsBy (restartRejected "file:///rec.3gp") 60000 8
      (dispatch (fun r => enableMic r true) initialWorld) =
      some [{ recording := 1, uri := "file:///rec.3gp" }] ∧
    uploadsBy (restartRejected "file:///rec.3gp") 75000 8
      (dispatch (fun r => enableMic r true) initialWorld) =
      some [{ recording := 1, uri := "file:///rec.3gp" },
            { recording := 2, uri := "file:///rec.3gp" }] ∧
    uploadsBy (allOk "file:///rec.3gp") 60000 8
      (dispatch (fun r => enableMic r true) initialWorld) =
      some [{ recording := 1, uri := "file:///rec.3gp" },
            { recording := 1, uri := "file:///rec.3gp" }] :=
  ⟨rfl, rfl, rfl, rfl, rfl, by decide, rfl, rfl,
   (capture_cycle_upload_times initialWorld (restartRejected "file:///rec.3gp")
      "file:///rec.3gp" rfl rfl rfl rfl rfl (by decide)).2.1 40000 (by decide) (by decide),
   ((capture_cycle_upload_times initialWorld (restartRejected "file:///rec.3gp")
      "file:///rec.3gp" rfl rfl rfl rfl rfl (by decide)).2.2.2 rfl).1,
   (((capture_cycle_upload_times initialWorld (restartRejected "file:///rec.3gp")
      "file:///rec.3gp" rfl rfl rfl rfl rfl (by decide)).2.2.2 rfl).2 "file:///rec.3gp" rfl
      (by decide)).2,
   (capture_cycle_upload_times initialWorld (allOk "file:///rec.3gp")
      "file:///rec.3gp" rfl rfl rfl rfl rfl (by decide)).2.2.1 rfl rfl "file:///rec.3gp" rfl
      (by decide)⟩

/-! ## C11: the alert request -/

/-- C11.  For every state and every outcome of `POST /send-sms` (a network
error, a response that is not ok, an ok response whose body does not parse, an
ok response with a body), `startLocationUpdates` with permission granted
returns without throwing, issues exactly one alert request, and ends with
`loading = false` and the new location interval live, of period 10 s, its id
stored in `intervalId`. -/
theorem startLocationUpdates_alert_once (w : World) (sms : AlertOutcome) :
    ((startLocationUpdates w.react "granted" sms).run w).1 = .ok () ∧
    (startGranted sms w).alertPosts = w.alertPosts + 1 ∧
    (startGranted sms w).react.loading = false ∧
    locationInterval w ∈ (startGranted sms w).intervals ∧
    (locationInterval w).period = 10000 ∧
    (locationInterval w).callback = .locationTick ∧
    (startGranted sms w).react.intervalId = some (locationInterval w).id := by
  refine ⟨?_, ?_, ?_, ?_, rfl, rfl, ?_⟩
  all_goals
    rcases sms with _ | ⟨ok, js⟩ <;>
      simp [startGranted, dispatch, startLocationUpdates, sendSms, setLoading, clearInterval,
        setInterval, setIntervalId, startRecordingLoop, setIsRecording, locationInterval] <;>
      split_ifs <;> simp

/-! ## C12: `stopLocationUpdates` twice -/

/-- What `stopLocationUpdates` leaves in the cells it writes. -/
theorem stopLocationUpdates_cells (w : World) :
    (dispatch stopLocationUpdates w).react.location = .null ∧
    (dispatch stopLocationUpdates w).react.isRecording = false ∧
    idTruthy (dispatch stopLocationUpdates w).react.intervalId = false ∧
    (idTruthy w.react.intervalId = true →
      (dispatch stopLocationUpdates w).react.intervalId = none) ∧
    (idTruthy w.react.intervalId = false →
      (dispatch stopLocationUpdates w).react.intervalId = w.react.intervalId) := by
  by_cases ht : idTruthy w.react.intervalId = true <;>
    by_cases hr : w.react.isRecording = true <;>
    simp [dispatch, stopLocationUpdates, stopRecordingLoop, clearInterval, setIsRecording,
      setIntervalId, setLocation, ht, hr] <;> simp_all [idTruthy]

/-- On cells as `stopLocationUpdates` leaves them, `stopLocationUpdates`
changes nothing. -/
theorem stopLocationUpdates_fixed (w : World) (hl : w.react.location = .null)
    (hr : w.react.isRecording = false) (ht : idTruthy w.react.intervalId = false) :
    dispatch stopLocationUpdates w = w := by
  obtain ⟨⟨r1, r2, r3, r4, r5, r6⟩, ref, var, now, lt, ints, recs, st, sw, ap, up, ac, dl, sb, ee⟩ := w
  simp only at hl hr ht
  subst hl hr
  simp [dispatch, stopLocationUpdates, stopRecordingLoop, clearInterval, setIsRecording,
    setIntervalId, setLocation, ht]


/-- The render after a handler writes no cell but `isRecording`, which it can
only set to `false`. -/
theorem commit_cells (w : World) :
    (commit w).react.location = w.react.location ∧
    (commit w).react.intervalId = w.react.intervalId ∧
    (w.react.isRecording = false → (commit w).react.isRecording = false) := by
  unfold commit
  split_ifs
  · exact ⟨rfl, rfl, id⟩
  · simp [intervalCleanup, stopRecordingLoop, clearInterval, setIsRecording]
    split_ifs <;> simp_all

/-- The cell `intervalId` after an event: unchanged, `null`, or the id just
handed out. -/
theorem intervalId_step (w : World) (e : Event) :
    (step w e).react.intervalId = w.react.intervalId ∨
    (step w e).react.intervalId = none ∨
    (step w e).react.intervalId = some (w.lastTimerId + 1) := by
  unfold step
  rw [(commit_cells _).2.1]
  cases e with
  | toggleSwitch status sms =>
    by_cases hst : status = "granted"
    · subst hst
      rcases sms with _ | ⟨ok, js⟩ <;>
        simp [dispatch, Event.handler, toggleSwitch, setIsEnabled, detach,
          startLocationUpdates, sendSms, setLoading, clearInterval, setInterval, setIntervalId,
          startRecordingLoop, setIsRecording, stopLocationUpdates, stopRecordingLoop,
          setLocation] <;>
        split_ifs <;> simp
    · simp [dispatch, Event.handler, toggleSwitch, setIsEnabled, detach,
        startLocationUpdates, setLoading, alert, hst, stopLocationUpdates, stopRecordingLoop,
        clearInterval, setIsRecording, setIntervalId, setLocation]
      split_ifs <;> simp
  | enableMic ok =>
    left
    simp [dispatch, Event.handler, enableMic, setAudioModeAsync, setIsMicEnabled,
      setIsRecording, alert, startRecordingLoop, setInterval]
    split_ifs <;> simp
  | stopMic =>
    left
    simp [dispatch, Event.handler, stopMic, setIsMicEnabled, setIsRecording, alert,
      stopRecordingLoop, clearInterval]

/-- Every state reached from the mounted component by user events holds a
positive id in `intervalId`, or `null`. -/
theorem idPositive_runEvents (es : List Event) : IdPositive (runEvents initialWorld es) := by
  suffices h : ∀ w, IdPositive w → IdPositive (runEvents w es) from
    h _ (by intro n hn; simp [initialWorld, initialState] at hn)
  induction es with
  | nil => intro w hw; exact hw
  | cons e es ih =>
    intro w hw
    apply ih
    intro n hn
    rcases intervalId_step w e with h | h | h
    · exact hw n (h ▸ hn)
    · rw [h] at hn; cases hn
    · rw [h] at hn; cases hn; omega

/-- C12.  For every state, `stopLocationUpdates` returns without throwing and
leaves `location = null`, `isRecording = false` and, the id held by
`intervalId` being positive as every id handed out by `setInterval` is,
`intervalId = null`; applied again to its own result, directly or after the
render that follows, it changes nothing at all: no cell, no timer. -/
theorem stopLocationUpdates_idempotent (w : World) :
    ((stopLocationUpdates w.react).run w).1 = .ok () ∧
    (dispatch stopLocationUpdates w).react.location = .null ∧
    (dispatch stopLocationUpdates w).react.isRecording = false ∧
    (IdPositive w → (dispatch stopLocationUpdates w).react.intervalId = none) ∧
    dispatch stopLocationUpdates (dispatch stopLocationUpdates w) =
      dispatch stopLocationUpdates w ∧
    dispatch stopLocationUpdates (commit (dispatch stopLocationUpdates w)) =
      commit (dispatch stopLocationUpdates w) := by
  obtain ⟨hl, hr, ht, hsome, hnone⟩ := stopLocationUpdates_cells w
  obtain ⟨cl, ci, cr⟩ := commit_cells (dispatch stopLocationUpdates w)
  refine ⟨?_, hl, hr, ?_, stopLocationUpdates_fixed _ hl hr ht, ?_⟩
  · simp [stopLocationUpdates, stopRecordingLoop, clearInterval, setIsRecording,
      setIntervalId, setLocation]
    split_ifs <;> simp
  · intro hpos
    by_cases h : idTruthy w.react.intervalId = true
    · exact hsome h
    · have h0 : idTruthy w.react.intervalId = false := by simpa using h
      rw [hnone h0]
      rcases hid : w.react.intervalId with _ | n
      · rfl
      · have := hpos n hid
        rw [hid] at h0
        simp [idTruthy] at h0
        omega
  · exact stopLocationUpdates_fixed _ (cl.trans hl) (cr hr) (by rw [ci]; exact ht)

/-- C12 at the state reached by `enableMic` and one activation, where
`intervalId` holds the id 2 of the live location interval. -/
theorem stopLocationUpdates_idempotent_witness :
    IdPositive (runEvents initialWorld
      [.enableMic true, .toggleSwitch "granted" (.response true true)]) ∧
    (dispatch stopLocationUpdates (runEvents initialWorld
      [.enableMic true, .toggleSwitch "granted" (.response true true)])).react.location =
      .null ∧
    (dispatch stopLocationUpdates (runEvents initialWorld
      [.enableMic true, .toggleSwitch "granted" (.response true true)])).react.isRecording =
      false ∧
    (dispatch stopLocationUpdates (runEvents initialWorld
      [.enableMic true, .toggleSwitch "granted" (.response true true)])).react.intervalId =
      none ∧
    dispatch stopLocationUpdates (dispatch stopLocationUpdates (runEvents initialWorld
      [.enableMic true, .toggleSwitch "granted" (.response true true)])) =
      dispatch stopLocationUpdates (runEvents initialWorld
        [.enableMic true, .toggleSwitch "granted" (.response true true)]) :=
  ⟨idPositive_runEvents _,
   (stopLocationUpdates_idempotent _).2.1,
   (stopLocationUpdates_idempotent _).2.2.1,
   (stopLocationUpdates_idempotent _).2.2.2.1 (idPositive_runEvents _),
   (stopLocationUpdates_idempotent _).2.2.2.2.1⟩

/-! ## C13: unmounting -/

/-- C13, evaluated on the code.  After `enableMic` and an activation with
permission granted, one location interval and one capture interval are live.
When the component unmounts, the location interval is cleared and the
subscription is released (a later snapshot leaves `location` as it is), but
the interval on `recordAndSendAudio` is still live, and twenty seconds later
`recordAndSendAudio` has run. -/
theorem unmount_keeps_capture_interval :
    (liveOn .locationTick
      (runEvents initialWorld
        [.enableMic true, .toggleSwitch "granted" (.response true true)])).length = 1 ∧
    (liveOn .recordAndSendAudio
      (runEvents initialWorld
        [.enableMic true, .toggleSwitch "granted" (.response true true)])).length = 1 ∧
    (liveOn .locationTick
      (unmount (runEvents initialWorld
        [.enableMic true, .toggleSwitch "granted" (.response true true)]))).length = 0 ∧
    (unmount (runEvents initialWorld
      [.enableMic true, .toggleSwitch "granted" (.response true true)])).subscribed = false ∧
    (deliver (.coords 12.9 77.6) (unmount (runEvents initialWorld
      [.enableMic true, .toggleSwitch "granted" (.response true true)]))).react.location =
      .null ∧
    (liveOn .recordAndSendAudio
      (unmount (runEvents initialWorld
        [.enableMic true, .toggleSwitch "granted" (.response true true)]))).length = 1 ∧
    (runUntil (allOk "file:///rec.3gp") 20000 4
      { world := unmount (runEvents initialWorld
          [.enableMic true, .toggleSwitch "granted" (.response true true)]),
        pending := [] }).map (fun s => s.world.audioCalls) =
      some [.setAudioMode, .setAudioMode, .prepareToRecord 1, .start 1] := by
  refine ⟨?_, ?_, ?_, ?_, rfl, ?_, ?_⟩ <;> decide

/-! ## C14: the subscription callback -/

/-- C14.  For every state, whatever `isEnabled` is, and every snapshot value
`d`: the callback returns without throwing; if `d` is truthy the `location`
cell holds `d` afterwards, otherwise it is unchanged; and nothing else
changes, in the cells or in the rest of the world.  In particular, from a
state with `isEnabled = true`, after `toggleSwitch` has run
`stopLocationUpdates` (`isEnabled = false`, `location = null`) a truthy
snapshot makes `location` hold `d` again while `isEnabled` stays `false`. -/
theorem onLocationValue_overwrites (w : World) (d : Value) (status : String)
    (sms : AlertOutcome) :
    (onLocationValue d).run w =
      (.ok (), if d.truthy = true then { w with react := { w.react with location := d } }
        else w) ∧
    (w.react.isEnabled = true → w.subscribed = true → d.truthy = true →
      (dispatch (fun r => toggleSwitch r status sms) w).react.isEnabled = false ∧
      (dispatch (fun r => toggleSwitch r status sms) w).react.location = .null ∧
      (deliver d (dispatch (fun r => toggleSwitch r status sms) w)).react.location = d ∧
      (deliver d (dispatch (fun r => toggleSwitch r status sms) w)).react.isEnabled =
        false) := by
  have hrun : ∀ w1 : World, (onLocationValue d).run w1 =
      (.ok (), if d.truthy = true then { w1 with react := { w1.react with location := d } }
        else w1) := by
    intro w1
    simp [onLocationValue, setLocation]
    split_ifs <;> rfl
  refine ⟨hrun w, ?_⟩
  intro hen hsub hd
  have hstop : (dispatch (fun r => toggleSwitch r status sms) w).react.isEnabled = false ∧
      (dispatch (fun r => toggleSwitch r status sms) w).react.location = .null ∧
      (dispatch (fun r => toggleSwitch r status sms) w).subscribed = true := by
    simp [dispatch, toggleSwitch, setIsEnabled, hen, stopLocationUpdates, stopRecordingLoop,
      clearInterval, setIsRecording, setIntervalId, setLocation]
    split_ifs <;> simp [hsub]
  refine ⟨hstop.1, hstop.2.1, ?_, ?_⟩
  · simp only [deliver, hstop.2.2, if_true, hrun, hd]
  · simp only [deliver, hstop.2.2, if_true, hrun, hd]
    exact hstop.1

/-- C14 at the state reached by one activation, with the snapshot
`{12.9, 77.6}`. -/
theorem onLocationValue_overwrites_witness :
    (runEvents initialWorld
      [.toggleSwitch "granted" (.response true true)]).react.isEnabled = true ∧
    (runEvents initialWorld [.toggleSwitch "granted" (.response true true)]).subscribed = true ∧
    (Value.coords 12.9 77.6).truthy = true ∧
    (dispatch (fun r => toggleSwitch r "granted" .networkError) (runEvents initialWorld
      [.toggleSwitch "granted" (.response true true)])).react.isEnabled = false ∧
    (dispatch (fun r => toggleSwitch r "granted" .networkError) (runEvents initialWorld
      [.toggleSwitch "granted" (.response true true)])).react.location = .null ∧
    (deliver (.coords 12.9 77.6) (dispatch (fun r => toggleSwitch r "granted" .networkError)
      (runEvents initialWorld
        [.toggleSwitch "granted" (.response true true)]))).react.location =
      .coords 12.9 77.6 ∧
    (deliver (.coords 12.9 77.6) (dispatch (fun r => toggleSwitch r "granted" .networkError)
      (runEvents initialWorld
        [.toggleSwitch "granted" (.response true true)]))).react.isEnabled = false :=
  ⟨rfl, rfl, rfl,
   (onLocationValue_overwrites (runEvents initialWorld
      [.toggleSwitch "granted" (.response true true)]) (.coords 12.9 77.6) "granted"
      .networkError).2 rfl rfl rfl⟩

end NightSupport
